import Mathlib

/-!
# citron: a shallow embedding of `main.cpp`

The program is a single C++ translation unit that opens an SDL window, compiles
two shaders, uploads a quad and runs an event loop.  The embedding below
translates its functions into Lean.  Calls into SDL, OpenGL and the C library
are recorded in an event log; whatever those libraries answer is read from an
environment of oracles, so every theorem holds for all library behaviours
unless it says otherwise.

Machine integers are mathematical integers with explicit wrap-around:
`GLint`/`GLsizei` are 32-bit two's complement, `unsigned long` is 64-bit.
-/

namespace Citron

/-! ## Machine integers -/

/-- Reduction of an integer to a 32-bit two's-complement `GLint`/`GLsizei`. -/
def toGLint (x : Int) : Int := (x + 2147483648) % 4294967296 - 2147483648

/-- Conversion of an integer to a 64-bit `unsigned long` (also `size_t`). -/
def toULong (x : Int) : Nat := (x % 18446744073709551616).toNat

/-- Conversion of an integer to a 32-bit `GLuint`/`GLenum`. -/
def toGLuint (x : Int) : Nat := (x % 4294967296).toNat

/-- The value of sizeof(GLfloat): `GLfloat` is a 32-bit float. -/
def sizeof_GLfloat : Nat := 4

/-! ## The variadic attribute list -/

/-- One `(name, attrib, size)` group of the arguments of `ShaderProgram_SetAttribs`.
A pointer is `none` when it is `NULL`; a non-null `attrib` is named by the
`GLint` variable it points to. -/
structure AttribArg where
  name : Option String
  attrib : Option String
  size : Int
deriving DecidableEq, Repr

/-- The C condition `name && attrib && size`. -/
def AttribArg.isSet (a : AttribArg) : Bool :=
  a.name.isSome && a.attrib.isSome && a.size != 0

/-- The function `GetAttribFromArgs`: three `va_arg` reads.  The `va_list` is the list of
groups still unread; the function is handed the caller's list and advances it
(as on the x86-64 System V ABI, where `va_list` is an array type), so the
result carries the advanced list.  Reading past the last argument that was
passed is undefined behaviour: `none`. -/
def GetAttribFromArgs : List AttribArg → Option (AttribArg × List AttribArg)
  | [] => none
  | a :: rest => some (a, rest)

/-- The `do { stride += size; GetAttribFromArgs(...) } while (name && attrib && size)`
loop of `GetStride`, started with the given `size` and running `stride`.  The
match on the list is the call of `GetAttribFromArgs`; the addition wraps as a
32-bit `GLint` does. -/
def GetStride_loop : List AttribArg → Int → Int → Option Int
  | [], _, _ => none
  | a :: rest, size, stride =>
    if a.isSet then GetStride_loop rest a.size (toGLint (stride + size))
    else some (toGLint (stride + size))

/-- The function `GetStride(src, size)`: it works on a `va_copy` of `src`, so the caller's
list is left where it was. -/
def GetStride (src : List AttribArg) (size : Int) : Option Int :=
  GetStride_loop src size 0

/-- The groups of an argument list that come before its first terminator. -/
def leadingAttribs (args : List AttribArg) : List AttribArg :=
  args.takeWhile AttribArg.isSet

/-- The sum of the sizes of a list of groups. -/
def sumSizes (args : List AttribArg) : Int :=
  (args.map AttribArg.size).sum

/-- An argument list is sentinel-terminated when one of its groups fails
`name && attrib && size`. -/
def Terminated (args : List AttribArg) : Prop :=
  ∃ t ∈ args, t.isSet = false

/-- A value that a `GLsizei` can hold. -/
def FitsGLint (x : Int) : Prop := -2147483648 ≤ x ∧ x < 2147483648

instance (x : Int) : Decidable (FitsGLint x) := by
  unfold FitsGLint; infer_instance

instance (args : List AttribArg) : Decidable (Terminated args) := by
  unfold Terminated; infer_instance

/-! ## Header constants

The values below are those of the OpenGL and SDL2 headers that `main.cpp`
includes; the headers are not part of the repository. -/

/-- Header constant `GL_NO_ERROR`. -/
def GL_NO_ERROR : Nat := 0
/-- Header constant `GL_INVALID_ENUM`. -/
def GL_INVALID_ENUM : Nat := 0x0500
/-- Header constant `GL_INVALID_VALUE`. -/
def GL_INVALID_VALUE : Nat := 0x0501
/-- Header constant `GL_INVALID_OPERATION`. -/
def GL_INVALID_OPERATION : Nat := 0x0502
/-- Header constant `GL_OUT_OF_MEMORY`. -/
def GL_OUT_OF_MEMORY : Nat := 0x0505
/-- Header constant `GL_INVALID_FRAMEBUFFER_OPERATION`. -/
def GL_INVALID_FRAMEBUFFER_OPERATION : Nat := 0x0506
/-- Header constant `GL_FRAGMENT_SHADER`. -/
def GL_FRAGMENT_SHADER : Nat := 0x8B30
/-- Header constant `GL_VERTEX_SHADER`. -/
def GL_VERTEX_SHADER : Nat := 0x8B31
/-- Header constant `SDL_QUIT` (an event type). -/
def SDL_QUIT : Nat := 0x100
/-- Header constant `SDL_KEYUP` (an event type). -/
def SDL_KEYUP : Nat := 0x301
/-- Header constant `SDLK_ESCAPE` (a key code). -/
def SDLK_ESCAPE : Int := 27
/-- The enumerator `ELOAD` of `main.cpp`. -/
def ELOAD : Int := -1

/-! ## Events, outcomes and the environment -/

/-- An argument handed to a `printf`-style call after the format string. -/
inductive PrintfArg where
  /-- A `char *` for a `%s`; `none` is `NULL`. -/
  | str (s : Option String)
  /-- An integer for a `%d`. -/
  | int (n : Int)
deriving DecidableEq, Repr

/-- The part of an `SDL_Event` that the program reads: `type` and
`key.keysym.sym`. -/
structure SDL_Event where
  type : Nat
  sym : Int
deriving DecidableEq, Repr

/-- What the program does to the outside world, one entry per call into a
library (with the answer the library gave, where the program uses one) or per
write through a pointer or to a global.  Arguments that are fixed symbolic
constants of the source are not recorded. -/
inductive Event where
  /-- The call `printf(format, args...)` or `vprintf(format, args)`. -/
  | printf (format : String) (args : List PrintfArg)
  /-- A write of `value` to the named variable (directly or through a pointer to it). -/
  | store (var : String) (value : Int)
  | fopen (path : String) (ok : Bool)
  | fseek
  | ftell (size : Int)
  | rewind
  | calloc (count : Nat) (ok : Bool)
  | fread (size : Nat) (count : Nat) (content : String)
  | fclose
  | free
  | SDL_Init (result : Int)
  | SDL_GL_SetAttribute (attr : String) (value : String)
  | SDL_CreateWindow (result : Nat)
  | SDL_GL_CreateContext (window : Int) (result : Nat)
  | glewInit (result : Nat)
  | SDL_GL_DeleteContext (context : Int)
  | SDL_Quit
  | glClearColor (r g b a : Rat)
  | glClear
  | glDrawElements (count : Nat)
  | SDL_PollEvent (result : Option SDL_Event)
  | SDL_GL_SwapWindow (window : Int)
  | glGetError (result : Nat)
  | glCreateShader (shaderType : Nat) (result : Nat)
  | glShaderSource (shader : Nat) (src : String)
  | glCompileShader (shader : Nat)
  | glGetShaderiv (shader : Nat) (status : Int)
  | glGetShaderInfoLog (shader : Nat) (text : String)
  | glCreateProgram (result : Nat)
  | glAttachShader (program : Nat) (shader : Nat)
  | glGenVertexArrays (result : Nat)
  | glBindVertexArray (vao : Nat)
  | glGenBuffers (result : Nat)
  | glBindBuffer (target : String) (buffer : Nat)
  | glBufferData (target : String) (size : Nat) (floats : List Rat) (uints : List Nat)
  | glBindFragDataLocation (program : Nat) (color : Nat) (name : String)
  | glLinkProgram (program : Nat)
  | glUseProgram (program : Nat)
  | glGetAttribLocation (program : Nat) (name : Option String) (result : Int)
  | glEnableVertexAttribArray (index : Nat)
  | glVertexAttribPointer (index : Nat) (size : Int) (stride : Int) (pointer : Nat)
deriving DecidableEq, Repr

/-- The history of a run, oldest event first. -/
abbrev Log := List Event

/-- What the libraries answer.  Every answer may depend on everything that
happened before (the log at the time of the call) and on the arguments. -/
structure Env where
  fopen : Log → String → Bool
  ftell : Log → Int
  calloc : Log → Nat → Bool
  fread : Log → Nat → Nat × String
  SDL_Init : Log → Int
  SDL_CreateWindow : Log → Nat
  SDL_GL_CreateContext : Log → Int → Nat
  glewInit : Log → Nat
  glGetError : Log → Nat
  glCreateShader : Log → Nat → Nat
  glGetShaderiv : Log → Nat → Int
  glGetShaderInfoLog : Log → Nat → String
  glCreateProgram : Log → Nat
  glGenVertexArrays : Log → Nat
  glGenBuffers : Log → Nat
  glGetAttribLocation : Log → Nat → Option String → Int

/-- How a piece of the program ends. -/
inductive Outcome (α : Type) where
  /-- It returns `value` to its caller. -/
  | ret (value : α) (log : Log)
  /-- The process ends in `exit(code)`. -/
  | exit (code : Int) (log : Log)
  /-- The behaviour is undefined from here on (a `va_arg` past the last
  argument, a write through a null pointer). -/
  | undefined (log : Log)
  /-- The event loop is still running when the given poll results are used up. -/
  | pending (log : Log)
deriving DecidableEq, Repr

/-- A piece of the program: from the log so far to its outcome. -/
def Prog (α : Type) : Type := Log → Outcome α

/-- Sequencing: the second piece runs only when the first returns. -/
def Prog.bind {α β : Type} (m : Prog α) (f : α → Prog β) : Prog β :=
  fun log =>
    match m log with
    | .ret a log1 => f a log1
    | .exit code log1 => .exit code log1
    | .undefined log1 => .undefined log1
    | .pending log1 => .pending log1

instance : Monad Prog where
  pure a := fun log => .ret a log
  bind := Prog.bind

/-- A library call whose answer the program does not use. -/
def emit (e : Event) : Prog Unit := fun log => .ret () (log ++ [e])

/-- A library call with an answer: the answer is taken from the environment
at the current log and recorded in the event. -/
def call {α : Type} (answer : Log → α) (event : α → Event) : Prog α :=
  fun log => .ret (answer log) (log ++ [event (answer log)])

/-- Undefined behaviour. -/
def undefinedBehaviour {α : Type} : Prog α := fun log => .undefined log

/-- The value of a variable after one more event, `cur` being its value before. -/
def loadStep (var : String) (cur : Int) : Event → Int
  | .store v value => if v = var then value else cur
  | _ => cur

/-- The current value of a variable: the last value stored to it; globals
start at zero. -/
def load (var : String) (log : Log) : Int :=
  log.foldl (loadStep var) 0

/-! ## Error reporting -/

/-- The function `Panic(code, format, ...)`: it prints with `vprintf` and calls `exit(code)`. -/
def Panic {α : Type} (code : Int) (format : String) (args : List PrintfArg) : Prog α :=
  fun log => .exit code (log ++ [.printf format args])

/-- The function `ErrorString(error)`: the name of the error constant, `none` (`NULL`)
when no case of the switch matches. -/
def ErrorString (error : Nat) : Option String :=
  if error = GL_NO_ERROR then some "GL_NO_ERROR"
  else if error = GL_INVALID_ENUM then some "GL_INVALID_ENUM"
  else if error = GL_INVALID_VALUE then some "GL_INVALID_VALUE"
  else if error = GL_INVALID_OPERATION then some "GL_INVALID_OPERATION"
  else if error = GL_INVALID_FRAMEBUFFER_OPERATION then some "GL_INVALID_FRAMEBUFFER_OPERATION"
  else if error = GL_OUT_OF_MEMORY then some "GL_OUT_OF_MEMORY"
  else none

/-- The function `Panic_on_glGetError(tag)`. -/
def Panic_on_glGetError (env : Env) (tag : String) : Prog Unit := do
  let error ← call env.glGetError .glGetError
  if error ≠ 0 then do
    emit (.printf "%s panic: " [.str (some tag)])
    Panic 1 "%s (%d)\n" [.str (ErrorString error), .int error]
  else pure ()

/-! ## Text -/

/-- The function `Text_FromFile(path)`: the contents of the file, as read by `fread`. -/
def Text_FromFile (env : Env) (path : String) : Prog String := do
  let file ← call (fun log => env.fopen log path) (.fopen path)
  if !file then Panic ELOAD "Text_FromFile: unable to find '%s'" [.str (some path)]
  else do
    emit .fseek
    let size ← call env.ftell .ftell
    emit .rewind
    let buffer ← call (fun log => env.calloc log (toULong (size + 1)))
      (.calloc (toULong (size + 1)))
    if !buffer then
      Panic ELOAD "Text_FromFile: unable to allocate buffer for '%s'\n" [.str (some path)]
    else do
      let got ← call (fun log => env.fread log (toULong size))
        (fun r => .fread (toULong size) r.1 r.2)
      if got.1 ≠ toULong size then
        Panic ELOAD "Text_FromFile: error reading '%s'\n" [.str (some path)]
      else do
        emit .fclose
        pure got.2

/-- The function `Text_Free(t)`: it frees a non-null text and returns `NULL`. -/
def Text_Free (t : Option String) : Prog (Option String) := do
  if t.isSome then emit .free else pure ()
  pure none

/-! ## Window -/

/-- The function `Window_New()`: no result of a library call is looked at. -/
def Window_New (env : Env) : Prog Bool := do
  let _ ← call env.SDL_Init .SDL_Init
  emit (.SDL_GL_SetAttribute "SDL_GL_CONTEXT_PROFILE_MASK" "SDL_GL_CONTEXT_PROFILE_CORE")
  emit (.SDL_GL_SetAttribute "SDL_GL_CONTEXT_MAJOR_VERSION" "3")
  emit (.SDL_GL_SetAttribute "SDL_GL_CONTEXT_MINOR_VERSION" "2")
  emit (.SDL_GL_SetAttribute "SDL_GL_STENCIL_SIZE" "8")
  let w ← call env.SDL_CreateWindow .SDL_CreateWindow
  emit (.store "window" w)
  let c ← call (fun log => env.SDL_GL_CreateContext log w) (.SDL_GL_CreateContext w)
  emit (.store "context" c)
  emit (.store "glewExperimental" 1)
  let _ ← call env.glewInit .glewInit
  pure true

/-- The function `Window_Destroy()`. -/
def Window_Destroy : Prog Unit := do
  let context ← (fun log => Outcome.ret (load "context" log) log : Prog Int)
  emit (.SDL_GL_DeleteContext context)
  emit .SDL_Quit

/-- The number of indices `Window_Event` passes to `glDrawElements`. -/
def drawCount : Nat := 6

/-- Whether an event makes `Window_Event` return: `SDL_QUIT`, or `SDL_KEYUP`
of the Escape key. -/
def SDL_Event.quits (e : SDL_Event) : Bool :=
  e.type == SDL_QUIT || (e.type == SDL_KEYUP && e.sym == SDLK_ESCAPE)

/-- One pass through the body of the `while (true)` loop of `Window_Event`,
`poll` being what `SDL_PollEvent` gives in this pass (`none`: it returned 0).
The result is `some b` when the body executes `return b`, `none` when the
loop goes round again. -/
def Window_Event_body (poll : Option SDL_Event) : Prog (Option Bool) := do
  emit (.glClearColor 0 0 0 1)
  emit .glClear
  emit (.glDrawElements drawCount)
  emit (.SDL_PollEvent poll)
  match poll with
  | some e =>
    if e.type = SDL_QUIT then pure (some false)
    else if e.type = SDL_KEYUP ∧ e.sym = SDLK_ESCAPE then pure (some false)
    else do
      let window ← (fun log => Outcome.ret (load "window" log) log : Prog Int)
      emit (.SDL_GL_SwapWindow window)
      pure none
  | none => pure none

/-- The function `Window_Event()`, run against the sequence of results of `SDL_PollEvent`.
The statement after the loop, `return true`, has no path leading to it. -/
def Window_Event : List (Option SDL_Event) → Prog Bool
  | [] => fun log => .pending log
  | poll :: polls => do
    match ← Window_Event_body poll with
    | some b => pure b
    | none => Window_Event polls

/-! ## Shaders -/

/-- The function `Shader_FromFile(filename, shaderType)`. -/
def Shader_FromFile (env : Env) (filename : String) (shaderType : Nat) : Prog Nat := do
  let src ← Text_FromFile env filename
  let shader ← call (fun log => env.glCreateShader log shaderType) (.glCreateShader shaderType)
  emit (.glShaderSource shader src)
  let _ ← Text_Free (some src)
  emit (.glCompileShader shader)
  let status ← call (fun log => env.glGetShaderiv log shader) (.glGetShaderiv shader)
  if status = 0 then do
    let text ← call (fun log => env.glGetShaderInfoLog log shader) (.glGetShaderInfoLog shader)
    Panic 1 text []
  else pure shader

/-- One `(filename, shader, shaderType)` group of the arguments of
`ShaderProgram_New`; a non-null `shader` is named by the `GLuint` variable it
points to. -/
structure ShaderArg where
  filename : Option String
  shader : Option String
  shaderType : Nat
deriving DecidableEq, Repr

/-- The C condition `filename && shaderType`. -/
def ShaderArg.isSet (a : ShaderArg) : Bool :=
  a.filename.isSome && a.shaderType != 0

/-- The body of the `while (filename && shaderType)` loop of
`ShaderProgram_New` up to the three `va_arg` reads: compile, store through
`shader`, attach. -/
def ShaderProgram_New_step (env : Env) (program : Nat) (filename : String)
    (shader : Option String) (shaderType : Nat) : Prog Unit := do
  let handle ← Shader_FromFile env filename shaderType
  match shader with
  | none => undefinedBehaviour
  | some var => do
    emit (.store var handle)
    emit (.glAttachShader program handle)

/-- The `while (filename && shaderType)` loop of `ShaderProgram_New`: `cur`
holds the current values of the three variables, the list is the `va_list`. -/
def ShaderProgram_New_loop (env : Env) (program : Nat) : List ShaderArg → ShaderArg → Prog Unit
  | args, cur =>
    match cur.filename, cur.shaderType with
    | some filename, shaderType + 1 => do
      ShaderProgram_New_step env program filename cur.shader (shaderType + 1)
      match args with
      | [] => undefinedBehaviour
      | next :: rest => ShaderProgram_New_loop env program rest next
    | _, _ => pure ()

/-- The function `ShaderProgram_New(filename, shader, shaderType, ...)`; `first` is the
group of the three fixed parameters, `args` the variadic groups. -/
def ShaderProgram_New (env : Env) (first : ShaderArg) (args : List ShaderArg) : Prog Nat := do
  let program ← call env.glCreateProgram .glCreateProgram
  ShaderProgram_New_loop env program args first
  Panic_on_glGetError env "ShaderProgram_New"
  pure program

/-! ## Buffers -/

/-- The function `Vao_New()`. -/
def Vao_New (env : Env) : Prog Nat := do
  let vao ← call env.glGenVertexArrays .glGenVertexArrays
  emit (.glBindVertexArray vao)
  Panic_on_glGetError env "Vao_New"
  pure vao

/-- The function `GlBuffer_New(target, size, data)`; the data is a float array or an
unsigned array. -/
def GlBuffer_New (env : Env) (target : String) (size : Nat) (floats : List Rat)
    (uints : List Nat) : Prog Nat := do
  let buffer ← call env.glGenBuffers .glGenBuffers
  emit (.glBindBuffer target buffer)
  emit (.glBufferData target size floats uints)
  pure buffer

/-- The function `Vbo_New(size, data)`. -/
def Vbo_New (env : Env) (size : Nat) (data : List Rat) : Prog Nat := do
  let vbo ← GlBuffer_New env "GL_ARRAY_BUFFER" size data []
  Panic_on_glGetError env "Vbo_New"
  pure vbo

/-- The function `Ebo_New(size, data)`. -/
def Ebo_New (env : Env) (size : Nat) (data : List Nat) : Prog Nat := do
  let ebo ← GlBuffer_New env "GL_ELEMENT_ARRAY_BUFFER" size [] data
  Panic_on_glGetError env "Ebo_New"
  pure ebo

/-! ## Vertex attributes -/

/-- The function `ShaderProgram_SetAttrib(program, name, size, stride, offset)`.  The
statement `stride *= sizeof(GLfloat)` multiplies in `size_t` and converts the
product back to `GLsizei`; `pointer` is an `unsigned long`. -/
def ShaderProgram_SetAttrib (env : Env) (program : Nat) (name : Option String) (size : Int)
    (stride : Int) (offset : Nat) : Prog Int := do
  let index ← call (fun log => env.glGetAttribLocation log program name)
    (.glGetAttribLocation program name)
  emit (.glEnableVertexAttribArray (toGLuint index))
  let stride := toGLint (toULong (toULong stride * sizeof_GLfloat))
  let pointer := toULong (offset * sizeof_GLfloat)
  emit (.glVertexAttribPointer (toGLuint index) size stride pointer)
  Panic_on_glGetError env "ShaderProgram_SetAttrib"
  pure index

/-- The `while (name && attrib && size)` loop of `ShaderProgram_SetAttribs`:
`cur` holds the current values of `name`, `attrib` and `size`, the list is the
`va_list`, `offset` the running `unsigned long` offset.  The match on the list
is the call of `GetAttribFromArgs`. -/
def ShaderProgram_SetAttribs_loop (env : Env) (program : Nat) (stride : Int) :
    List AttribArg → AttribArg → Nat → Prog Unit
  | args, cur, offset =>
    match cur.attrib with
    | some var =>
      if cur.name.isSome && cur.size != 0 then do
        let index ← ShaderProgram_SetAttrib env program cur.name cur.size stride offset
        emit (.store var index)
        match args with
        | [] => undefinedBehaviour
        | next :: rest =>
          ShaderProgram_SetAttribs_loop env program stride rest next (toULong (offset + cur.size))
      else pure ()
    | none => pure ()

/-- The function `ShaderProgram_SetAttribs(program, name, attrib, size, ...)`; `first`
is the group of the three fixed parameters after `program`, `args` the
variadic groups. -/
def ShaderProgram_SetAttribs (env : Env) (program : Nat) (first : AttribArg)
    (args : List AttribArg) : Prog Unit := do
  if !(program != 0 && first.name.isSome && first.attrib.isSome && first.size != 0) then
    Panic 1 "ShaderProgram_SetAttribs: args not set" []
  else do
    match GetStride args first.size with
    | none => undefinedBehaviour
    | some stride => do
      emit (.printf "%d\n" [.int stride])
      ShaderProgram_SetAttribs_loop env program stride args first 0

/-! ## main -/

/-- The array `vertices` of `main`: four vertices of five floats. -/
def vertices : List Rat :=
  [-1/2,  1/2, 1, 0, 0,
    1/2,  1/2, 0, 1, 0,
    1/2, -1/2, 0, 0, 1,
   -1/2, -1/2, 1, 1, 1]

/-- The array `elements` of `main`: two triangles. -/
def elements : List Nat :=
  [0, 1, 2,
   2, 3, 0]

/-- The first group of the shader list of the call in `main`. -/
def main_shader_first : ShaderArg := ⟨some "./shader.vert", some "vertexShader", GL_VERTEX_SHADER⟩

/-- The variadic groups of the shader list of the call in `main`. -/
def main_shader_rest : List ShaderArg :=
  [⟨some "./shader.frag", some "fragmentShader", GL_FRAGMENT_SHADER⟩, ⟨none, none, 0⟩]

/-- The first group of the attribute list of the call in `main`. -/
def main_attrib_first : AttribArg := ⟨some "position", some "position", 2⟩

/-- The variadic groups of the attribute list of the call in `main`. -/
def main_attrib_rest : List AttribArg :=
  [⟨some "color", some "color", 3⟩, ⟨none, none, 0⟩]

/-- The function `main`, run against the sequence of results of `SDL_PollEvent`. -/
def main (env : Env) (polls : List (Option SDL_Event)) : Prog Int := do
  let _ ← Window_New env
  let _ ← Vao_New env
  let _ ← Vbo_New env (sizeof_GLfloat * vertices.length) vertices
  let _ ← Ebo_New env (4 * elements.length) elements
  let program ← ShaderProgram_New env main_shader_first main_shader_rest
  emit (.glBindFragDataLocation program 0 "outColor")
  emit (.glLinkProgram program)
  emit (.glUseProgram program)
  Panic_on_glGetError env "link/use program"
  ShaderProgram_SetAttribs env program main_attrib_first main_attrib_rest
  let _ ← Window_Event polls
  Window_Destroy
  pure 0

/-! ## Vocabulary of the statements -/

/-- Whether an event is a print to standard output. -/
def Event.isPrintf : Event → Bool
  | .printf _ _ => true
  | _ => false

/-- Whether an event is a write to a variable. -/
def Event.isStore : Event → Bool
  | .store _ _ => true
  | _ => false

/-- Whether an event is a call of `SDL_GL_SwapWindow`. -/
def Event.isSwap : Event → Bool
  | .SDL_GL_SwapWindow _ => true
  | _ => false

/-- The events of one pass of the loop of `Window_Event` as the statements
describe it: clear, draw, poll, and a swap when the poll gave an event that
does not quit. -/
def iterationEvents (window : Int) (poll : Option SDL_Event) : List Event :=
  [.glClearColor 0 0 0 1, .glClear, .glDrawElements 6, .SDL_PollEvent poll] ++
    match poll with
    | some e => if e.quits then [] else [.SDL_GL_SwapWindow window]
    | none => []

/-- The events of one pass for each poll result of a sequence, in order. -/
def loopEvents (window : Int) : List (Option SDL_Event) → List Event
  | [] => []
  | poll :: polls => iterationEvents window poll ++ loopEvents window polls

/-- A poll result that lets the loop go on: no event, or an event that does
not quit. -/
def continues (poll : Option SDL_Event) : Bool :=
  match poll with
  | some e => !e.quits
  | none => true

/-- The log an outcome carries. -/
def Outcome.log {α : Type} : Outcome α → Log
  | .ret _ log => log
  | .exit _ log => log
  | .undefined log => log
  | .pending log => log

/-- The events the statements expect from `ShaderProgram_SetAttribs` for a
list of attributes: for each one, in order, the location is looked up by name,
the array is enabled, `glVertexAttribPointer` gets the size, the byte stride
and a byte pointer of four times `offset`, the sum of the sizes before it,
`glGetError` reports no error, and the location is stored through the
attribute's pointer. -/
def attribEvents (env : Env) (program : Nat) (byteStride : Int) :
    List AttribArg → Int → Log → List Event
  | [], _, _ => []
  | a :: rest, offset, log =>
    let index := env.glGetAttribLocation log program a.name
    let evs : List Event :=
      [.glGetAttribLocation program a.name index,
       .glEnableVertexAttribArray (toGLuint index),
       .glVertexAttribPointer (toGLuint index) a.size byteStride (4 * offset).toNat,
       .glGetError 0] ++
      match a.attrib with
      | some var => [.store var index]
      | none => []
    evs ++ attribEvents env program byteStride rest (offset + a.size) (log ++ evs)

/-- The first event of the attribute pass of `ShaderProgram_SetAttribs`: the
stride is printed. -/
def strideEvent (first : AttribArg) (rest : List AttribArg) : Event :=
  .printf "%d\n" [.int (sumSizes (leadingAttribs (first :: rest)))]

/-- The events the statements expect from the loop of
`ShaderProgram_SetAttribs` on an argument list, started at `log`: those of the
attributes before the first terminator, with a byte stride of four times the
sum of their sizes. -/
def setAttribsEvents (env : Env) (program : Nat) (first : AttribArg) (rest : List AttribArg)
    (log : Log) : List Event :=
  attribEvents env program (4 * sumSizes (leadingAttribs (first :: rest)))
    (leadingAttribs (first :: rest)) 0 (log ++ [strideEvent first rest])

/-- The calls the statements announce for a list of attributes: one call of
`ShaderProgram_SetAttrib` for each attribute, in list order, with its name and
size, the common `stride`, and `offset`, the sum of the sizes before it; the
location returned is stored through the attribute's pointer. -/
def setAttribCalls (env : Env) (program : Nat) (stride : Int) :
    List AttribArg → Int → Prog Unit
  | [], _ => pure ()
  | a :: rest, offset => do
    let index ← ShaderProgram_SetAttrib env program a.name a.size stride offset.toNat
    match a.attrib with
    | some var => emit (.store var index)
    | none => pure ()
    setAttribCalls env program stride rest (offset + a.size)

/-- The `(size, stride, pointer)` arguments of the calls of
`glVertexAttribPointer` in a log, in order. -/
def pointerCalls (log : Log) : List (Int × Int × Nat) :=
  log.filterMap fun e =>
    match e with
    | .glVertexAttribPointer _ size stride pointer => some (size, stride, pointer)
    | _ => none

/-- The names looked up with `glGetAttribLocation` in a log, in order. -/
def lookups (log : Log) : List (Option String) :=
  log.filterMap fun e =>
    match e with
    | .glGetAttribLocation _ name _ => some name
    | _ => none

/-- The variables written in a log, in order. -/
def storedVars (log : Log) : List String :=
  log.filterMap fun e =>
    match e with
    | .store var _ => some var
    | _ => none

/-- The layout the statements announce for a list of attributes: each one
gets its size, the byte stride, and a byte pointer of four times `offset`, the
sum of the sizes before it. -/
def layout (byteStride : Int) : List AttribArg → Int → List (Int × Int × Nat)
  | [], _ => []
  | a :: rest, offset =>
    (a.size, byteStride, (4 * offset).toNat) :: layout byteStride rest (offset + a.size)

/-- The float ranges `(offset, size)` that the calls of `glVertexAttribPointer`
in a log assign, the offset being the byte pointer over sizeof(GLfloat). -/
def floatRanges (log : Log) : List (Int × Int) :=
  (pointerCalls log).map fun c => (((c.2.2 / sizeof_GLfloat : Nat) : Int), c.1)

/-- The ranges are contiguous and tile `[start, stop)` exactly: each starts
where the one before ended, the first at `start`, the last ends at `stop`, and
each has a positive size. -/
def Tiles (stop : Int) : Int → List (Int × Int) → Prop
  | start, [] => start = stop
  | start, r :: rest => r.1 = start ∧ 0 < r.2 ∧ Tiles stop (start + r.2) rest

/-- A piece of the program only ever adds events to the log. -/
def Extends {α : Type} (m : Prog α) : Prop :=
  ∀ log, ∃ evs, (m log).log = log ++ evs

/-- The groups of a shader argument list that come before its first
terminator. -/
def leadingShaders (args : List ShaderArg) : List ShaderArg :=
  args.takeWhile ShaderArg.isSet

/-- A shader argument list is sentinel-terminated when one of its groups
fails `filename && shaderType`. -/
def TerminatedShaders (args : List ShaderArg) : Prop :=
  ∃ t ∈ args, t.isSet = false

instance (args : List ShaderArg) : Decidable (TerminatedShaders args) := by
  unfold TerminatedShaders; infer_instance

/-- Every file opens, is allocated and read whole, and every shader compiles. -/
def FilesLoadAndCompile (env : Env) : Prop :=
  (∀ log path, env.fopen log path = true)
  ∧ (∀ log n, env.calloc log n = true)
  ∧ (∀ log n, (env.fread log n).1 = n)
  ∧ (∀ log shader, env.glGetShaderiv log shader ≠ 0)

/-- The events of loading, compiling, storing and attaching one shader,
given what the libraries answered: the file size, its content, the shader
handle and the compile status. -/
def shaderStepEvents (program : Nat) (path var : String) (shaderType : Nat) (size : Int)
    (content : String) (handle : Nat) (status : Int) : List Event :=
  [.fopen path true, .fseek, .ftell size, .rewind, .calloc (toULong (size + 1)) true,
   .fread (toULong size) (toULong size) content, .fclose,
   .glCreateShader shaderType handle, .glShaderSource handle content, .free,
   .glCompileShader handle, .glGetShaderiv handle status,
   .store var handle, .glAttachShader program handle]

/-- The events are exactly those of loading, compiling, storing and attaching
the given shaders, one after the other in list order, each of them compiling
(non-zero status) and being stored through its own pointer. -/
def AttachesInOrder (program : Nat) : List ShaderArg → List Event → Prop
  | [], evs => evs = []
  | a :: rest, evs =>
    ∃ path var size content handle status evs1,
      a.filename = some path ∧ a.shader = some var ∧ status ≠ 0
      ∧ evs = shaderStepEvents program path var a.shaderType size content handle status ++ evs1
      ∧ AttachesInOrder program rest evs1

/-! ## Environments used as concrete inputs -/

/-- An environment in which every library call succeeds: files of ten bytes
open and are read whole, shaders compile, handles are small numbers,
`position` is attribute 0 and `color` attribute 1, `glGetError` reports no
error. -/
def okEnv : Env where
  fopen _ _ := true
  ftell _ := 10
  calloc _ _ := true
  fread _ n := (n, "void main()")
  SDL_Init _ := 0
  SDL_CreateWindow _ := 4096
  SDL_GL_CreateContext _ _ := 8192
  glewInit _ := 0
  glGetError _ := 0
  glCreateShader _ shaderType := if shaderType = GL_VERTEX_SHADER then 1 else 2
  glGetShaderiv _ _ := 1
  glGetShaderInfoLog _ _ := ""
  glCreateProgram _ := 3
  glGenVertexArrays _ := 1
  glGenBuffers _ := 1
  glGetAttribLocation _ _ name := if name = some "position" then 0 else 1

/-- An environment in which opening the window fails at every step:
`SDL_Init` returns -1, `SDL_CreateWindow` and `SDL_GL_CreateContext` return
`NULL`, `glewInit` returns an error code. -/
def noWindowEnv : Env :=
  { okEnv with
    SDL_Init := fun _ => -1
    SDL_CreateWindow := fun _ => 0
    SDL_GL_CreateContext := fun _ _ => 0
    glewInit := fun _ => 1 }

/-- An environment in which `glGetError` always reports `GL_INVALID_VALUE`. -/
def glErrorEnv : Env :=
  { okEnv with glGetError := fun _ => GL_INVALID_VALUE }

/-- An environment in which no file can be opened. -/
def noFileEnv : Env :=
  { okEnv with fopen := fun _ _ => false }

/-- An environment in which no shader compiles. -/
def noCompileEnv : Env :=
  { okEnv with
    glGetShaderiv := fun _ _ => 0
    glGetShaderInfoLog := fun _ _ => "0:1: syntax error" }

/-- The events of loading, compiling, storing and attaching the two shaders
of `main` when every library call succeeds as in `okEnv`. -/
def main_shader_events : List Event :=
  [.fopen "./shader.vert" true, .fseek, .ftell 10, .rewind, .calloc 11 true,
   .fread 10 10 "void main()", .fclose,
   .glCreateShader GL_VERTEX_SHADER 1, .glShaderSource 1 "void main()", .free,
   .glCompileShader 1, .glGetShaderiv 1 1,
   .store "vertexShader" 1, .glAttachShader 3 1,
   .fopen "./shader.frag" true, .fseek, .ftell 10, .rewind, .calloc 11 true,
   .fread 10 10 "void main()", .fclose,
   .glCreateShader GL_FRAGMENT_SHADER 2, .glShaderSource 2 "void main()", .free,
   .glCompileShader 2, .glGetShaderiv 2 1,
   .store "fragmentShader" 2, .glAttachShader 3 2]

/-- The uploads of a log, in order: for each call of `glBufferData` the
target, the size in bytes, and the number of floats and of unsigned integers
in the array handed over. -/
def bufferUploads (log : Log) : List (String × Nat × Nat × Nat) :=
  log.filterMap fun e =>
    match e with
    | .glBufferData target size floats uints => some (target, size, floats.length, uints.length)
    | _ => none

/-- The index counts of the calls of `glDrawElements` in a log, in order. -/
def drawCalls (log : Log) : List Nat :=
  log.filterMap fun e =>
    match e with
    | .glDrawElements count => some count
    | _ => none

/-- The log of a whole run of `main` in which every library call succeeds as
in `okEnv` and the first poll gives `SDL_QUIT`. -/
def main_events : Log :=
  [.SDL_Init 0,
   .SDL_GL_SetAttribute "SDL_GL_CONTEXT_PROFILE_MASK" "SDL_GL_CONTEXT_PROFILE_CORE",
   .SDL_GL_SetAttribute "SDL_GL_CONTEXT_MAJOR_VERSION" "3",
   .SDL_GL_SetAttribute "SDL_GL_CONTEXT_MINOR_VERSION" "2",
   .SDL_GL_SetAttribute "SDL_GL_STENCIL_SIZE" "8",
   .SDL_CreateWindow 4096, .store "window" 4096,
   .SDL_GL_CreateContext 4096 8192, .store "context" 8192,
   .store "glewExperimental" 1, .glewInit 0,
   .glGenVertexArrays 1, .glBindVertexArray 1, .glGetError 0,
   .glGenBuffers 1, .glBindBuffer "GL_ARRAY_BUFFER" 1,
   .glBufferData "GL_ARRAY_BUFFER" 80 vertices [], .glGetError 0,
   .glGenBuffers 1, .glBindBuffer "GL_ELEMENT_ARRAY_BUFFER" 1,
   .glBufferData "GL_ELEMENT_ARRAY_BUFFER" 24 [] elements, .glGetError 0,
   .glCreateProgram 3] ++ main_shader_events ++
  [.glGetError 0,
   .glBindFragDataLocation 3 0 "outColor", .glLinkProgram 3, .glUseProgram 3, .glGetError 0,
   .printf "%d\n" [.int 5],
   .glGetAttribLocation 3 (some "position") 0, .glEnableVertexAttribArray 0,
   .glVertexAttribPointer 0 2 20 0, .glGetError 0, .store "position" 0,
   .glGetAttribLocation 3 (some "color") 1, .glEnableVertexAttribArray 1,
   .glVertexAttribPointer 1 3 20 8, .glGetError 0, .store "color" 1,
   .glClearColor 0 0 0 1, .glClear, .glDrawElements 6,
   .SDL_PollEvent (some ⟨SDL_QUIT, 0⟩),
   .SDL_GL_DeleteContext 8192, .SDL_Quit]

/-! ## Lemmas on machine integers -/

theorem toGLint_of_fits {x : Int} (h : FitsGLint x) : toGLint x = x := by
  unfold FitsGLint at h
  unfold toGLint
  omega

theorem toGLint_add_toGLint (x y : Int) : toGLint (toGLint x + y) = toGLint (x + y) := by
  unfold toGLint
  omega

/-! ## Running a piece of the program -/

theorem bind_apply {α β : Type} (m : Prog α) (f : α → Prog β) (log : Log) :
    (m >>= f) log = match m log with
      | .ret a log1 => f a log1
      | .exit code log1 => .exit code log1
      | .undefined log1 => .undefined log1
      | .pending log1 => .pending log1 := rfl

theorem bind_ret {α β : Type} (m : Prog α) (f : α → Prog β) (log log1 : Log) (a : α)
    (h : m log = .ret a log1) : (m >>= f) log = f a log1 := by
  rw [bind_apply, h]

theorem bind_exit {α β : Type} (m : Prog α) (f : α → Prog β) (log log1 : Log) (code : Int)
    (h : m log = .exit code log1) : (m >>= f) log = .exit code log1 := by
  rw [bind_apply, h]

theorem pure_apply {α : Type} (a : α) (log : Log) : (pure a : Prog α) log = .ret a log := rfl

theorem emit_apply (e : Event) (log : Log) : emit e log = .ret () (log ++ [e]) := rfl

theorem call_apply {α : Type} (answer : Log → α) (event : α → Event) (log : Log) :
    call answer event log = .ret (answer log) (log ++ [event (answer log)]) := rfl

theorem Panic_apply {α : Type} (code : Int) (format : String) (args : List PrintfArg)
    (log : Log) :
    (Panic code format args : Prog α) log = .exit code (log ++ [.printf format args]) := rfl

/-! ## Error reporting -/

theorem Panic_on_glGetError_apply (env : Env) (tag : String) (log : Log) :
    Panic_on_glGetError env tag log =
      if env.glGetError log = 0 then .ret () (log ++ [.glGetError 0])
      else .exit 1 (log ++ [.glGetError (env.glGetError log),
        .printf "%s panic: " [.str (some tag)],
        .printf "%s (%d)\n" [.str (ErrorString (env.glGetError log)),
          .int (env.glGetError log)]]) := by
  unfold Panic_on_glGetError
  rw [bind_apply, call_apply]
  by_cases h : env.glGetError log = 0
  · simp [h, pure_apply]
  · simp [h, bind_apply, emit_apply, Panic_apply]

/-- C6: `Panic_on_glGetError(tag)` returns without printing exactly when
`glGetError` reports 0; for every other code it ends the process with
`exit(1)` after printing the tag with " panic: " and then the name given by
`ErrorString` with the numeric code; and `ErrorString` gives each of the five
error constants its own name. -/
theorem Panic_on_glGetError_spec (env : Env) (tag : String) (log : Log) :
    (Panic_on_glGetError env tag log = .ret () (log ++ [.glGetError 0])
        ↔ env.glGetError log = GL_NO_ERROR)
    ∧ ((∃ log1, Panic_on_glGetError env tag log = .ret () log1) ↔ env.glGetError log = 0)
    ∧ (env.glGetError log = 0 ∨
        Panic_on_glGetError env tag log
          = .exit 1 (log ++ [.glGetError (env.glGetError log),
              .printf "%s panic: " [.str (some tag)],
              .printf "%s (%d)\n" [.str (ErrorString (env.glGetError log)),
                .int (env.glGetError log)]]))
    ∧ ErrorString GL_INVALID_ENUM = some "GL_INVALID_ENUM"
    ∧ ErrorString GL_INVALID_VALUE = some "GL_INVALID_VALUE"
    ∧ ErrorString GL_INVALID_OPERATION = some "GL_INVALID_OPERATION"
    ∧ ErrorString GL_INVALID_FRAMEBUFFER_OPERATION = some "GL_INVALID_FRAMEBUFFER_OPERATION"
    ∧ ErrorString GL_OUT_OF_MEMORY = some "GL_OUT_OF_MEMORY" := by
  rw [Panic_on_glGetError_apply]
  refine ⟨?_, ?_, ?_, by decide, by decide, by decide, by decide, by decide⟩
  · by_cases h : env.glGetError log = 0 <;> simp [h, GL_NO_ERROR]
  · by_cases h : env.glGetError log = 0 <;> simp [h]
  · by_cases h : env.glGetError log = 0 <;> simp [h]

/-! ## Window -/

theorem loadStep_of_not_store (var : String) (cur : Int) (e : Event)
    (h : e.isStore = false) : loadStep var cur e = cur := by
  cases e <;> first | rfl | (exact absurd h (by simp [Event.isStore]))

theorem Window_Event_cons (poll : Option SDL_Event) (polls : List (Option SDL_Event))
    (log : Log) :
    Window_Event (poll :: polls) log
      = match Window_Event_body poll log with
        | .ret (some b) log1 => .ret b log1
        | .ret none log1 => Window_Event polls log1
        | .exit code log1 => .exit code log1
        | .undefined log1 => .undefined log1
        | .pending log1 => .pending log1 := by
  show (Window_Event_body poll >>= _) log = _
  rw [bind_apply]
  cases Window_Event_body poll log with
  | ret a log1 => cases a <;> rfl
  | exit code log1 => rfl
  | undefined log1 => rfl
  | pending log1 => rfl

theorem load_append (var : String) (log evs : Log) (h : ∀ e ∈ evs, e.isStore = false) :
    load var (log ++ evs) = load var log := by
  induction evs using List.reverseRecOn with
  | nil => simp
  | append_singleton evs e ih =>
    have he : e.isStore = false := h e (by simp)
    have hevs : ∀ e' ∈ evs, e'.isStore = false := fun e' he' => h e' (by simp [he'])
    rw [← List.append_assoc]
    have : load var (log ++ evs ++ [e]) = load var (log ++ evs) := by
      unfold load
      rw [List.foldl_append]
      exact loadStep_of_not_store var _ e he
    rw [this, ih hevs]

theorem iterationEvents_no_store (window : Int) (poll : Option SDL_Event) :
    ∀ e ∈ iterationEvents window poll, e.isStore = false := by
  intro e he
  unfold iterationEvents at he
  rcases poll with _ | ev
  · simp at he
    rcases he with rfl | rfl | rfl | rfl <;> rfl
  · by_cases hq : ev.quits = true
    · simp [hq] at he
      rcases he with rfl | rfl | rfl | rfl <;> rfl
    · simp [hq] at he
      rcases he with rfl | rfl | rfl | rfl | rfl <;> rfl

theorem Window_Event_body_apply (poll : Option SDL_Event) (log : Log) :
    Window_Event_body poll log
      = .ret (if continues poll then none else some false)
          (log ++ iterationEvents (load "window" log) poll) := by
  have hload : ∀ evs : Log, (∀ e ∈ evs, e.isStore = false) →
      load "window" (log ++ evs) = load "window" log := fun evs h => load_append _ _ _ h
  rcases poll with _ | ev
  · simp [Window_Event_body, bind_apply, emit_apply, pure_apply, iterationEvents, continues,
      drawCount]
  · by_cases h1 : ev.type = SDL_QUIT
    · simp [Window_Event_body, bind_apply, emit_apply, pure_apply, iterationEvents, continues,
        drawCount, SDL_Event.quits, h1]
    · by_cases h2 : ev.type = SDL_KEYUP ∧ ev.sym = SDLK_ESCAPE
      · simp [Window_Event_body, bind_apply, emit_apply, pure_apply, iterationEvents, continues,
          drawCount, SDL_Event.quits, h1, h2]
      · have hq : ev.quits = false := by
          simp only [SDL_Event.quits, Bool.or_eq_false_iff, beq_eq_false_iff_ne, ne_eq,
            Bool.and_eq_false_iff]
          refine ⟨h1, ?_⟩
          by_cases h3 : ev.type = SDL_KEYUP
          · right
            intro h4
            exact h2 ⟨h3, h4⟩
          · left
            exact h3
        have hw := hload [.glClearColor 0 0 0 1, .glClear, .glDrawElements 6,
          .SDL_PollEvent (some ev)] (by
            intro e he
            simp at he
            rcases he with rfl | rfl | rfl | rfl <;> rfl)
        simp only [List.append_assoc, List.cons_append, List.nil_append] at hw
        simp [Window_Event_body, bind_apply, emit_apply, pure_apply, iterationEvents, continues,
          drawCount, h1, h2, hq, hw]

theorem Window_Event_continue (pre : List (Option SDL_Event)) :
    ∀ (polls : List (Option SDL_Event)) (log : Log), (∀ p ∈ pre, continues p = true) →
      Window_Event (pre ++ polls) log
        = Window_Event polls (log ++ loopEvents (load "window" log) pre) := by
  induction pre with
  | nil => intro polls log _; simp [loopEvents]
  | cons p pre ih =>
    intro polls log h
    have hp : continues p = true := h p (by simp)
    have hpre : ∀ p' ∈ pre, continues p' = true := fun p' hp' => h p' (by simp [hp'])
    show Window_Event (p :: (pre ++ polls)) log = _
    rw [Window_Event_cons, Window_Event_body_apply]
    simp only [hp, if_true]
    rw [ih polls _ hpre, load_append _ _ _ (iterationEvents_no_store _ _)]
    simp [loopEvents]

theorem Window_Event_quit (q : SDL_Event) (post : List (Option SDL_Event)) (log : Log)
    (hq : q.quits = true) :
    Window_Event (some q :: post) log
      = .ret false (log ++ iterationEvents (load "window" log) (some q)) := by
  rw [Window_Event_cons, Window_Event_body_apply]
  simp [continues, hq]

theorem Window_Event_never_true (polls : List (Option SDL_Event)) :
    ∀ (log log1 : Log), Window_Event polls log ≠ .ret true log1 := by
  induction polls with
  | nil => intro log log1 h; simp [Window_Event] at h
  | cons p polls ih =>
    intro log log1
    rw [Window_Event_cons, Window_Event_body_apply]
    by_cases hp : continues p = true
    · simp only [hp, if_true]
      exact ih _ _
    · simp [hp]

theorem Window_Event_run (pre : List (Option SDL_Event))
    (q : SDL_Event) (post : List (Option SDL_Event)) (log : Log)
    (hpre : ∀ p ∈ pre, continues p = true) (hq : q.quits = true) :
    Window_Event (pre ++ some q :: post) log
        = .ret false (log ++ loopEvents (load "window" log) pre
            ++ iterationEvents (load "window" log) (some q)) := by
  rw [Window_Event_continue pre _ log hpre, Window_Event_quit q post _ hq]
  have hload : load "window" (log ++ loopEvents (load "window" log) pre)
      = load "window" log := by
    apply load_append
    intro e he
    clear hpre
    induction pre with
    | nil => simp [loopEvents] at he
    | cons p pre ih =>
      simp only [loopEvents, List.mem_append] at he
      rcases he with he | he
      · exact iterationEvents_no_store _ _ e he
      · exact ih he
  rw [hload]

/-- C4: against a sequence of poll results whose first quitting event `q`
(an `SDL_QUIT`, or an `SDL_KEYUP` of Escape) comes after the results `pre`,
`Window_Event` goes through one pass for each result of `pre` and one for `q`,
each pass clearing and drawing before it polls, and returns `false` in the pass
of `q`; on `pre` alone the loop is still running; and on no sequence at all
does it return `true`. -/
theorem Window_Event_returns_false_at_first_quit (pre : List (Option SDL_Event))
    (q : SDL_Event) (post : List (Option SDL_Event)) (log : Log)
    (hpre : ∀ p ∈ pre, continues p = true) (hq : q.quits = true) :
    Window_Event (pre ++ some q :: post) log
        = .ret false (log ++ loopEvents (load "window" log) pre
            ++ iterationEvents (load "window" log) (some q))
    ∧ Window_Event pre log = .pending (log ++ loopEvents (load "window" log) pre)
    ∧ (∀ (window : Int) (poll : Option SDL_Event),
        (iterationEvents window poll).take 4
          = [.glClearColor 0 0 0 1, .glClear, .glDrawElements 6, .SDL_PollEvent poll])
    ∧ (∀ (polls : List (Option SDL_Event)) (log0 log1 : Log),
        Window_Event polls log0 ≠ .ret true log1) := by
  refine ⟨Window_Event_run pre q post log hpre hq, ?_, ?_,
    fun polls log0 log1 => Window_Event_never_true polls log0 log1⟩
  · have h := Window_Event_continue pre [] log hpre
    rw [List.append_nil] at h
    rw [h]
    rfl
  · intro window poll
    rfl

/-- C4 on a concrete sequence: nothing, a key released that is not Escape,
Escape released, nothing. -/
theorem Window_Event_witness :
    Window_Event [none, some ⟨SDL_KEYUP, 97⟩, some ⟨SDL_KEYUP, SDLK_ESCAPE⟩, none] []
      = .ret false
        [.glClearColor 0 0 0 1, .glClear, .glDrawElements 6, .SDL_PollEvent none,
         .glClearColor 0 0 0 1, .glClear, .glDrawElements 6,
           .SDL_PollEvent (some ⟨SDL_KEYUP, 97⟩), .SDL_GL_SwapWindow 0,
         .glClearColor 0 0 0 1, .glClear, .glDrawElements 6,
           .SDL_PollEvent (some ⟨SDL_KEYUP, SDLK_ESCAPE⟩)] :=
  (Window_Event_returns_false_at_first_quit [none, some ⟨SDL_KEYUP, 97⟩]
    ⟨SDL_KEYUP, SDLK_ESCAPE⟩ [none] [] (by decide) (by decide)).1

/-- C10: a pass of the loop of `Window_Event` calls `SDL_GL_SwapWindow`
exactly when its poll gave an event and that event does not quit, so never
when the poll found nothing; and when `n` of the poll results before the first
quitting event are events, the window is swapped `n` times in the whole run. -/
theorem SwapWindow_iff_event_not_quit (pre : List (Option SDL_Event))
    (q : SDL_Event) (post : List (Option SDL_Event)) (log : Log)
    (hpre : ∀ p ∈ pre, continues p = true) (hq : q.quits = true) :
    (∀ (poll : Option SDL_Event) (log0 : Log), ∃ r evs,
        Window_Event_body poll log0 = .ret r (log0 ++ evs)
        ∧ ((∃ e ∈ evs, e.isSwap = true) ↔ ∃ ev, poll = some ev ∧ ev.quits = false))
    ∧ ∃ evs, Window_Event (pre ++ some q :: post) log = .ret false (log ++ evs)
        ∧ evs.countP Event.isSwap = (pre.filter Option.isSome).length := by
  constructor
  · intro poll log0
    refine ⟨_, _, Window_Event_body_apply poll log0, ?_⟩
    rcases poll with _ | ev
    · simp [iterationEvents, Event.isSwap]
    · by_cases hev : ev.quits = true <;> simp [iterationEvents, Event.isSwap, hev]
  · refine ⟨loopEvents (load "window" log) pre ++ iterationEvents (load "window" log) (some q),
      ?_, ?_⟩
    · rw [Window_Event_run pre q post log hpre hq, List.append_assoc]
    · rw [List.countP_append]
      have h1 : (iterationEvents (load "window" log) (some q)).countP Event.isSwap = 0 := by
        simp [iterationEvents, hq, Event.isSwap]
      rw [h1, Nat.add_zero]
      clear hq
      induction pre with
      | nil => simp [loopEvents]
      | cons p pre ih =>
        have hp : continues p = true := hpre p (by simp)
        have hpre1 : ∀ p' ∈ pre, continues p' = true := fun p' hp' => hpre p' (by simp [hp'])
        rw [loopEvents, List.countP_append, ih hpre1]
        rcases p with _ | ev
        · simp [iterationEvents, Event.isSwap]
        · have hev : ev.quits = false := by simpa [continues] using hp
          simp [iterationEvents, Event.isSwap, hev, Nat.add_comm]

/-- C10 on a concrete sequence: two events and an empty poll before
`SDL_QUIT` give two swaps. -/
theorem SwapWindow_witness :
    ∃ evs, Window_Event [some ⟨SDL_KEYUP, 97⟩, none, some ⟨1024, 0⟩, some ⟨SDL_QUIT, 0⟩] []
        = .ret false ([] ++ evs) ∧ evs.countP Event.isSwap = 2 :=
  (SwapWindow_iff_event_not_quit [some ⟨SDL_KEYUP, 97⟩, none, some ⟨1024, 0⟩]
    ⟨SDL_QUIT, 0⟩ [] [] (by decide) (by decide)).2

/-- C7, as the code has it: `Window_New` looks at no result.  Whatever
`SDL_Init`, `SDL_CreateWindow`, `SDL_GL_CreateContext` and `glewInit` answer,
it prints nothing, does not end the process and returns `true`. -/
theorem Window_New_returns_true (env : Env) (log : Log) :
    ∃ evs, Window_New env log = .ret true (log ++ evs)
      ∧ ∀ e ∈ evs, e.isPrintf = false := by
  simp only [Window_New, bind_apply, call_apply, emit_apply, pure_apply, List.append_assoc]
  exact ⟨_, rfl, by simp [Event.isPrintf]⟩

/-- C7 fails where every step of opening the window fails: `SDL_Init` gives
-1, the window and the context are `NULL`, `glewInit` gives an error code, and
`Window_New` still returns `true`. -/
theorem Window_New_counterexample :
    Window_New noWindowEnv []
      = .ret true
        [.SDL_Init (-1),
         .SDL_GL_SetAttribute "SDL_GL_CONTEXT_PROFILE_MASK" "SDL_GL_CONTEXT_PROFILE_CORE",
         .SDL_GL_SetAttribute "SDL_GL_CONTEXT_MAJOR_VERSION" "3",
         .SDL_GL_SetAttribute "SDL_GL_CONTEXT_MINOR_VERSION" "2",
         .SDL_GL_SetAttribute "SDL_GL_STENCIL_SIZE" "8",
         .SDL_CreateWindow 0, .store "window" 0,
         .SDL_GL_CreateContext 0 0, .store "context" 0,
         .store "glewExperimental" 1,
         .glewInit 1] := by
  rfl

/-! ## The stride pass -/

theorem GetStride_loop_unfold (args : List AttribArg) (size stride : Int) :
    GetStride_loop args size stride
      = match GetAttribFromArgs args with
        | none => none
        | some (a, rest) =>
          if a.isSet then GetStride_loop rest a.size (toGLint (stride + size))
          else some (toGLint (stride + size)) := by
  cases args <;> rfl

theorem Terminated_tail {a : AttribArg} {rest : List AttribArg} (ha : a.isSet = true)
    (h : Terminated (a :: rest)) : Terminated rest := by
  obtain ⟨t, ht, hts⟩ := h
  rcases List.mem_cons.mp ht with rfl | ht1
  · simp [ha] at hts
  · exact ⟨t, ht1, hts⟩

theorem leadingAttribs_cons_of_set {a : AttribArg} (rest : List AttribArg)
    (ha : a.isSet = true) : leadingAttribs (a :: rest) = a :: leadingAttribs rest := by
  simp [leadingAttribs, List.takeWhile, ha]

theorem leadingAttribs_cons_of_not_set {a : AttribArg} (rest : List AttribArg)
    (ha : a.isSet = false) : leadingAttribs (a :: rest) = [] := by
  simp [leadingAttribs, List.takeWhile, ha]

theorem GetStride_loop_eq (args : List AttribArg) :
    ∀ (size stride : Int), Terminated args →
      GetStride_loop args size stride
        = some (toGLint (stride + size + sumSizes (leadingAttribs args))) := by
  induction args with
  | nil => intro _ _ h; obtain ⟨t, ht, _⟩ := h; simp at ht
  | cons a rest ih =>
    intro size stride h
    unfold GetStride_loop
    by_cases ha : a.isSet = true
    · simp only [ha, if_true]
      rw [ih a.size _ (Terminated_tail ha h), add_assoc (toGLint (stride + size)),
        toGLint_add_toGLint, leadingAttribs_cons_of_set rest ha]
      simp [sumSizes, add_assoc]
    · simp [leadingAttribs, sumSizes, List.takeWhile, ha]

theorem GetStride_loop_append (pre : List AttribArg) (t : AttribArg) (post : List AttribArg)
    (ht : t.isSet = false) :
    ∀ (size stride : Int),
      GetStride_loop (pre ++ t :: post) size stride = GetStride_loop (pre ++ [t]) size stride := by
  induction pre with
  | nil => intro size stride; simp [GetStride_loop, ht]
  | cons a rest ih =>
    intro size stride
    show GetStride_loop (a :: (rest ++ t :: post)) size stride
      = GetStride_loop (a :: (rest ++ [t])) size stride
    unfold GetStride_loop
    rw [ih]

theorem GetStride_eq (first : AttribArg) (rest : List AttribArg)
    (hfirst : first.isSet = true) (hterm : Terminated (first :: rest))
    (hfits : FitsGLint (sumSizes (leadingAttribs (first :: rest)))) :
    GetStride rest first.size = some (sumSizes (leadingAttribs (first :: rest))) := by
  have hsum : sumSizes (leadingAttribs (first :: rest))
      = first.size + sumSizes (leadingAttribs rest) := by
    rw [leadingAttribs_cons_of_set rest hfirst]
    simp [sumSizes]
  unfold GetStride
  rw [GetStride_loop_eq rest _ _ (Terminated_tail hfirst hterm)]
  rw [hsum] at hfits
  rw [hsum, ← toGLint_of_fits hfits]
  congr 2
  omega

/-- C1, as the code has it: for an argument list that is sentinel-terminated
and starts with a valid group, and whose sizes before the first terminator add
up to a `GLsizei` value (at least -2^31 and below 2^31), the stride that
`GetStride` computes for `ShaderProgram_SetAttribs` (called with the unread
groups and the first size) is that sum; and the groups after the terminator do
not matter. -/
theorem GetStride_eq_sum_before_terminator (first : AttribArg) (rest : List AttribArg)
    (hfirst : first.isSet = true) (hterm : Terminated (first :: rest))
    (hfits : FitsGLint (sumSizes (leadingAttribs (first :: rest)))) :
    GetStride rest first.size = some (sumSizes (leadingAttribs (first :: rest)))
    ∧ ∀ (pre : List AttribArg) (t : AttribArg) (post : List AttribArg),
        rest = pre ++ t :: post → t.isSet = false →
        GetStride rest first.size = GetStride (pre ++ [t]) first.size := by
  refine ⟨GetStride_eq first rest hfirst hterm hfits, ?_⟩
  intro pre t post hrest ht
  unfold GetStride
  rw [hrest]
  exact GetStride_loop_append pre t post ht _ _

/-- C1 fails where the sum of the sizes is no `GLsizei` value: the list is
sentinel-terminated and its first group is valid, the sizes 2147483647 and 1
before the terminator add up to 2147483648, and the 32-bit stride that
`GetStride` returns is -2147483648. -/
theorem GetStride_counterexample :
    AttribArg.isSet ⟨some "position", some "position", 2147483647⟩ = true
    ∧ Terminated [⟨some "position", some "position", 2147483647⟩,
        ⟨some "color", some "color", 1⟩, ⟨none, none, 0⟩]
    ∧ sumSizes (leadingAttribs [⟨some "position", some "position", 2147483647⟩,
        ⟨some "color", some "color", 1⟩, ⟨none, none, 0⟩]) = 2147483648
    ∧ GetStride [⟨some "color", some "color", 1⟩, ⟨none, none, 0⟩] 2147483647
        = some (-2147483648)
    ∧ GetStride [⟨some "color", some "color", 1⟩, ⟨none, none, 0⟩] 2147483647
        ≠ some (sumSizes (leadingAttribs [⟨some "position", some "position", 2147483647⟩,
            ⟨some "color", some "color", 1⟩, ⟨none, none, 0⟩])) := by
  refine ⟨by decide, by decide, by decide, by decide, by decide⟩

/-- C1 at the call in `main`: the stride of position (2) and color (3) is 5. -/
theorem GetStride_main_witness :
    GetStride main_attrib_rest main_attrib_first.size = some 5 :=
  (GetStride_eq_sum_before_terminator main_attrib_first main_attrib_rest
    (by decide) (by decide) (by decide)).1

/-! ## The attribute pass -/

theorem toGLint_byteStride (stride : Int) (h : FitsGLint (4 * stride)) :
    toGLint (toULong (toULong stride * sizeof_GLfloat)) = 4 * stride := by
  unfold FitsGLint at h
  unfold toGLint toULong sizeof_GLfloat
  omega

theorem ShaderProgram_SetAttrib_apply (env : Env) (program : Nat) (name : Option String)
    (size stride : Int) (offset : Nat) (log : Log) :
    ShaderProgram_SetAttrib env program name size stride offset log
      = (Panic_on_glGetError env "ShaderProgram_SetAttrib" >>= fun _ =>
          (pure (env.glGetAttribLocation log program name) : Prog Int))
        (log ++ [.glGetAttribLocation program name (env.glGetAttribLocation log program name),
          .glEnableVertexAttribArray (toGLuint (env.glGetAttribLocation log program name)),
          .glVertexAttribPointer (toGLuint (env.glGetAttribLocation log program name)) size
            (toGLint (toULong (toULong stride * sizeof_GLfloat)))
            (toULong (offset * sizeof_GLfloat))]) := by
  simp [ShaderProgram_SetAttrib, bind_apply, call_apply, emit_apply]

theorem SetAttribs_loop_of_not_set (env : Env) (program : Nat) (stride : Int)
    (args : List AttribArg) (cur : AttribArg) (offset : Nat) (log : Log)
    (hcur : cur.isSet = false) :
    ShaderProgram_SetAttribs_loop env program stride args cur offset log = .ret () log := by
  rcases cur with ⟨name, attrib, size⟩
  cases args <;> cases attrib <;> cases name <;>
    simp_all [ShaderProgram_SetAttribs_loop, AttribArg.isSet, pure_apply]

theorem SetAttribs_loop_of_set (env : Env) (program : Nat) (stride : Int)
    (next : AttribArg) (rest : List AttribArg) (cur : AttribArg) (offset : Nat) (log : Log)
    (hcur : cur.isSet = true) :
    ∃ var, cur.attrib = some var ∧
    ShaderProgram_SetAttribs_loop env program stride (next :: rest) cur offset log
      = (ShaderProgram_SetAttrib env program cur.name cur.size stride offset >>= fun index =>
          emit (.store var index) >>= fun _ =>
            ShaderProgram_SetAttribs_loop env program stride rest next
              (toULong (offset + cur.size))) log
    ∧ ShaderProgram_SetAttribs_loop env program stride [] cur offset log
      = (ShaderProgram_SetAttrib env program cur.name cur.size stride offset >>= fun index =>
          emit (.store var index) >>= fun _ => (undefinedBehaviour : Prog Unit)) log := by
  rcases cur with ⟨name, attrib, size⟩
  cases attrib with
  | none => simp [AttribArg.isSet] at hcur
  | some var =>
    refine ⟨var, rfl, ?_⟩
    cases name with
    | none => simp [AttribArg.isSet] at hcur
    | some n =>
      have hsize : size ≠ 0 := by simpa [AttribArg.isSet] using hcur
      constructor
      · rw [ShaderProgram_SetAttribs_loop]
        simp [hsize]
      · rw [ShaderProgram_SetAttribs_loop]
        simp [hsize]

theorem sumSizes_nonneg (l : List AttribArg) (hl : ∀ a ∈ l, 0 < a.size) : 0 ≤ sumSizes l := by
  induction l with
  | nil => simp [sumSizes]
  | cons b l ihl =>
    have hb : 0 < b.size := hl b (by simp)
    have := ihl (fun a ha => hl a (by simp [ha]))
    simp only [sumSizes, List.map_cons, List.sum_cons] at this ⊢
    omega

theorem SetAttribs_loop_apply (env : Env) (program : Nat) (stride : Int)
    (hok : ∀ l, env.glGetError l = 0) (args : List AttribArg) :
    ∀ (cur : AttribArg) (offset : Nat) (log : Log), Terminated (cur :: args) →
      (∀ a ∈ leadingAttribs (cur :: args), 0 < a.size) →
      (offset : Int) + sumSizes (leadingAttribs (cur :: args)) < 2147483648 →
      ShaderProgram_SetAttribs_loop env program stride args cur offset log
        = .ret () (log ++ attribEvents env program
            (toGLint (toULong (toULong stride * sizeof_GLfloat)))
            (leadingAttribs (cur :: args)) offset log) := by
  induction args with
  | nil =>
    intro cur offset log hterm _ _
    have hcur : cur.isSet = false := by
      obtain ⟨t, ht, hts⟩ := hterm
      simp at ht
      rw [← ht]
      exact hts
    rw [SetAttribs_loop_of_not_set _ _ _ _ _ _ _ hcur, leadingAttribs_cons_of_not_set _ hcur]
    simp [attribEvents]
  | cons next rest ih =>
    intro cur offset log hterm hpos hsum
    by_cases hcur : cur.isSet = true
    · obtain ⟨var, hvar, hloop, -⟩ :=
        SetAttribs_loop_of_set env program stride next rest cur offset log hcur
      rw [leadingAttribs_cons_of_set _ hcur] at hpos hsum ⊢
      have hsize : 0 < cur.size := hpos cur (by simp)
      have hposrest : ∀ a ∈ leadingAttribs (next :: rest), 0 < a.size :=
        fun a ha => hpos a (by simp [ha])
      have hrest0 := sumSizes_nonneg _ hposrest
      have hsum1 : (offset : Int) + cur.size + sumSizes (leadingAttribs (next :: rest))
          < 2147483648 := by
        simp only [sumSizes, List.map_cons, List.sum_cons] at hsum hrest0 ⊢
        omega
      have hnext : ((toULong ((offset : Int) + cur.size) : Nat) : Int)
          = (offset : Int) + cur.size := by
        unfold toULong
        omega
      have hptr : toULong ((offset : Int) * (sizeof_GLfloat : Int))
          = (4 * (offset : Int)).toNat := by
        unfold toULong sizeof_GLfloat
        omega
      rw [hloop, bind_apply, ShaderProgram_SetAttrib_apply, bind_apply,
        Panic_on_glGetError_apply]
      simp only [hok, if_true, pure_apply, bind_apply, emit_apply]
      rw [ih next _ _ (Terminated_tail hcur hterm) hposrest (by rw [hnext]; exact hsum1)]
      rw [hnext, hptr]
      simp [attribEvents, hvar, List.append_assoc]
    · have hcur1 : cur.isSet = false := by simpa using hcur
      rw [SetAttribs_loop_of_not_set _ _ _ _ _ _ _ hcur1,
        leadingAttribs_cons_of_not_set _ hcur1]
      simp [attribEvents]

theorem SetAttribs_loop_eq_calls (env : Env) (program : Nat) (stride : Int)
    (args : List AttribArg) :
    ∀ (cur : AttribArg) (offset : Nat) (log : Log), Terminated (cur :: args) →
      (∀ a ∈ leadingAttribs (cur :: args), 0 < a.size) →
      (offset : Int) + sumSizes (leadingAttribs (cur :: args)) < 2147483648 →
      ShaderProgram_SetAttribs_loop env program stride args cur offset log
        = setAttribCalls env program stride (leadingAttribs (cur :: args)) offset log := by
  induction args with
  | nil =>
    intro cur offset log hterm _ _
    have hcur : cur.isSet = false := by
      obtain ⟨t, ht, hts⟩ := hterm
      simp at ht
      rw [← ht]
      exact hts
    rw [SetAttribs_loop_of_not_set _ _ _ _ _ _ _ hcur, leadingAttribs_cons_of_not_set _ hcur]
    rfl
  | cons next rest ih =>
    intro cur offset log hterm hpos hsum
    by_cases hcur : cur.isSet = true
    · obtain ⟨var, hvar, hloop, -⟩ :=
        SetAttribs_loop_of_set env program stride next rest cur offset log hcur
      rw [leadingAttribs_cons_of_set _ hcur] at hpos hsum ⊢
      have hsize : 0 < cur.size := hpos cur (by simp)
      have hposrest : ∀ a ∈ leadingAttribs (next :: rest), 0 < a.size :=
        fun a ha => hpos a (by simp [ha])
      have hrest0 := sumSizes_nonneg _ hposrest
      have hsum1 : (offset : Int) + cur.size + sumSizes (leadingAttribs (next :: rest))
          < 2147483648 := by
        simp only [sumSizes, List.map_cons, List.sum_cons] at hsum hrest0 ⊢
        omega
      have hnext : ((toULong ((offset : Int) + cur.size) : Nat) : Int)
          = (offset : Int) + cur.size := by
        unfold toULong
        omega
      rw [hloop, setAttribCalls, hvar, bind_apply, bind_apply, Int.toNat_ofNat]
      cases ShaderProgram_SetAttrib env program cur.name cur.size stride offset log with
      | ret index log1 =>
        simp only [bind_apply, emit_apply]
        rw [ih next _ _ (Terminated_tail hcur hterm) hposrest (by rw [hnext]; exact hsum1),
          hnext]
      | exit code log1 => rfl
      | undefined log1 => rfl
      | pending log1 => rfl
    · have hcur1 : cur.isSet = false := by simpa using hcur
      rw [SetAttribs_loop_of_not_set _ _ _ _ _ _ _ hcur1,
        leadingAttribs_cons_of_not_set _ hcur1]
      rfl

theorem ShaderProgram_SetAttribs_eq_calls (env : Env) (program : Nat) (first : AttribArg)
    (rest : List AttribArg) (log : Log)
    (hprogram : program ≠ 0) (hfirst : first.isSet = true) (hterm : Terminated (first :: rest))
    (hpos : ∀ a ∈ leadingAttribs (first :: rest), 0 < a.size)
    (hfits : sumSizes (leadingAttribs (first :: rest)) < 2147483648) :
    ShaderProgram_SetAttribs env program first rest log
      = setAttribCalls env program (sumSizes (leadingAttribs (first :: rest)))
          (leadingAttribs (first :: rest)) 0 (log ++ [strideEvent first rest]) := by
  have hnonneg : 0 ≤ sumSizes (leadingAttribs (first :: rest)) := sumSizes_nonneg _ hpos
  have hS : FitsGLint (sumSizes (leadingAttribs (first :: rest))) := by
    unfold FitsGLint
    omega
  have hguard : (!(program != 0 && first.name.isSome && first.attrib.isSome && first.size != 0))
      = false := by
    have h1 : (first.name.isSome && first.attrib.isSome && first.size != 0) = true := hfirst
    simp only [Bool.and_assoc] at h1 ⊢
    simp [h1, hprogram]
  unfold ShaderProgram_SetAttribs
  rw [hguard, GetStride_eq first rest hfirst hterm hS]
  simp only [Bool.false_eq_true, if_false, bind_apply, emit_apply]
  rw [SetAttribs_loop_eq_calls env program _ rest first 0 _ hterm hpos (by
    simp only [Nat.cast_zero, zero_add]; omega)]
  simp [strideEvent]

theorem ShaderProgram_SetAttribs_apply (env : Env) (program : Nat) (first : AttribArg)
    (rest : List AttribArg) (log : Log)
    (hprogram : program ≠ 0) (hfirst : first.isSet = true) (hterm : Terminated (first :: rest))
    (hpos : ∀ a ∈ leadingAttribs (first :: rest), 0 < a.size)
    (hfits : sumSizes (leadingAttribs (first :: rest)) < 2147483648)
    (hok : ∀ l, env.glGetError l = 0) :
    ShaderProgram_SetAttribs env program first rest log
      = .ret () (log ++ strideEvent first rest
          :: attribEvents env program
              (toGLint (toULong (toULong (sumSizes (leadingAttribs (first :: rest)))
                * sizeof_GLfloat)))
              (leadingAttribs (first :: rest)) 0 (log ++ [strideEvent first rest])) := by
  have hnonneg : 0 ≤ sumSizes (leadingAttribs (first :: rest)) := sumSizes_nonneg _ hpos
  have hS : FitsGLint (sumSizes (leadingAttribs (first :: rest))) := by
    unfold FitsGLint
    omega
  have hguard : (!(program != 0 && first.name.isSome && first.attrib.isSome && first.size != 0))
      = false := by
    have h1 : (first.name.isSome && first.attrib.isSome && first.size != 0) = true := hfirst
    simp only [Bool.and_assoc] at h1 ⊢
    simp [h1, hprogram]
  unfold ShaderProgram_SetAttribs
  rw [hguard, GetStride_eq first rest hfirst hterm hS]
  simp only [Bool.false_eq_true, if_false, bind_apply, emit_apply]
  rw [SetAttribs_loop_apply env program _ hok rest first 0 _ hterm hpos (by
    simp only [Nat.cast_zero, zero_add]; omega)]
  simp [strideEvent]

/-! ## Pieces of the program only add to the log -/

theorem Extends.bind {α β : Type} {m : Prog α} {f : α → Prog β} (hm : Extends m)
    (hf : ∀ a, Extends (f a)) : Extends (m >>= f) := by
  intro log
  obtain ⟨evs, h⟩ := hm log
  rw [bind_apply]
  cases hmlog : m log with
  | ret a log1 =>
    rw [hmlog] at h
    obtain ⟨evs1, h1⟩ := hf a log1
    refine ⟨evs ++ evs1, ?_⟩
    simp only [Outcome.log] at h
    subst h
    simp only [h1, List.append_assoc]
  | exit code log1 => rw [hmlog] at h; exact ⟨evs, h⟩
  | undefined log1 => rw [hmlog] at h; exact ⟨evs, h⟩
  | pending log1 => rw [hmlog] at h; exact ⟨evs, h⟩

theorem Extends.pure {α : Type} (a : α) : Extends (pure a : Prog α) :=
  fun log => ⟨[], by simp [pure_apply, Outcome.log]⟩

theorem Extends.emit (e : Event) : Extends (emit e) :=
  fun log => ⟨[e], by simp [emit_apply, Outcome.log]⟩

theorem Extends.call {α : Type} (answer : Log → α) (event : α → Event) :
    Extends (call answer event) :=
  fun log => ⟨[event (answer log)], by simp [call_apply, Outcome.log]⟩

theorem Extends.Panic {α : Type} (code : Int) (format : String) (args : List PrintfArg) :
    Extends (Panic code format args : Prog α) :=
  fun log => ⟨[.printf format args], by simp [Panic_apply, Outcome.log]⟩

theorem Extends.undefinedBehaviour {α : Type} : Extends (undefinedBehaviour : Prog α) :=
  fun log => ⟨[], by simp [Citron.undefinedBehaviour, Outcome.log]⟩

theorem Extends.Panic_on_glGetError (env : Env) (tag : String) :
    Extends (Panic_on_glGetError env tag) := by
  intro log
  rw [Panic_on_glGetError_apply]
  by_cases h : env.glGetError log = 0
  · exact ⟨[.glGetError 0], by simp only [h, if_true, Outcome.log]⟩
  · exact ⟨[.glGetError (env.glGetError log), .printf "%s panic: " [.str (some tag)],
      .printf "%s (%d)\n" [.str (ErrorString (env.glGetError log)),
        .int (env.glGetError log)]], by simp only [h, if_false, Outcome.log]⟩

theorem Extends.ShaderProgram_SetAttrib (env : Env) (program : Nat) (name : Option String)
    (size stride : Int) (offset : Nat) :
    Extends (ShaderProgram_SetAttrib env program name size stride offset) := by
  unfold Citron.ShaderProgram_SetAttrib
  refine Extends.bind (Extends.call _ _) fun index => ?_
  refine Extends.bind (Extends.emit _) fun _ => ?_
  refine Extends.bind (Extends.emit _) fun _ => ?_
  exact Extends.bind (Extends.Panic_on_glGetError _ _) fun _ => Extends.pure _

theorem Extends.ShaderProgram_SetAttribs_loop (env : Env) (program : Nat) (stride : Int)
    (args : List AttribArg) :
    ∀ (cur : AttribArg) (offset : Nat),
      Extends (ShaderProgram_SetAttribs_loop env program stride args cur offset) := by
  induction args with
  | nil =>
    intro cur offset log
    by_cases hcur : cur.isSet = true
    · obtain ⟨var, -, -, h⟩ := SetAttribs_loop_of_set env program stride cur [] cur offset log hcur
      rw [h]
      exact Extends.bind (Extends.ShaderProgram_SetAttrib _ _ _ _ _ _)
        (fun _ => Extends.bind (Extends.emit _) fun _ => Extends.undefinedBehaviour) log
    · rw [SetAttribs_loop_of_not_set _ _ _ _ _ _ _ (by simpa using hcur)]
      exact ⟨[], by simp [Outcome.log]⟩
  | cons next rest ih =>
    intro cur offset log
    by_cases hcur : cur.isSet = true
    · obtain ⟨var, -, h, -⟩ :=
        SetAttribs_loop_of_set env program stride next rest cur offset log hcur
      rw [h]
      exact Extends.bind (Extends.ShaderProgram_SetAttrib _ _ _ _ _ _)
        (fun _ => Extends.bind (Extends.emit _) fun _ => ih _ _) log
    · rw [SetAttribs_loop_of_not_set _ _ _ _ _ _ _ (by simpa using hcur)]
      exact ⟨[], by simp [Outcome.log]⟩

/-- C5: `ShaderProgram_SetAttribs` ends the process with `exit(1)` having
printed "ShaderProgram_SetAttribs: args not set", and having done nothing
else, exactly when one of `program`, `name`, `attrib`, `size` is zero or
null. -/
theorem SetAttribs_panics_iff_args_not_set (env : Env) (program : Nat) (first : AttribArg)
    (rest : List AttribArg) (log : Log) :
    ShaderProgram_SetAttribs env program first rest log
        = .exit 1 (log ++ [.printf "ShaderProgram_SetAttribs: args not set" []])
      ↔ (program = 0 ∨ first.name = none ∨ first.attrib = none ∨ first.size = 0) := by
  by_cases hguard : (program != 0 && first.name.isSome && first.attrib.isSome
      && first.size != 0) = true
  · have hargs : ¬ (program = 0 ∨ first.name = none ∨ first.attrib = none ∨ first.size = 0) := by
      simp only [Bool.and_eq_true, bne_iff_ne, ne_eq, Option.isSome_iff_ne_none] at hguard
      tauto
    refine iff_of_false ?_ hargs
    unfold ShaderProgram_SetAttribs
    rw [hguard]
    simp only [Bool.not_true, Bool.false_eq_true, if_false]
    cases GetStride rest first.size with
    | none => simp [undefinedBehaviour]
    | some stride =>
      simp only [bind_apply, emit_apply]
      obtain ⟨evs, hevs⟩ := Extends.ShaderProgram_SetAttribs_loop env program stride rest first 0
        (log ++ [.printf "%d\n" [.int stride]])
      intro h
      rw [h] at hevs
      simp only [Outcome.log, List.append_assoc, List.append_cancel_left_eq, List.singleton_append,
        List.cons.injEq, Event.printf.injEq] at hevs
      exact absurd hevs.1.1 (by decide)
  · have hargs : program = 0 ∨ first.name = none ∨ first.attrib = none ∨ first.size = 0 := by
      simp only [Bool.and_eq_true, bne_iff_ne, ne_eq, Option.isSome_iff_ne_none] at hguard
      tauto
    refine iff_of_true ?_ hargs
    unfold ShaderProgram_SetAttribs
    simp only [Bool.not_eq_true] at hguard
    rw [hguard]
    simp [Panic_apply]

/-! ## What the attribute pass hands to OpenGL -/

theorem pointerCalls_append (l1 l2 : Log) :
    pointerCalls (l1 ++ l2) = pointerCalls l1 ++ pointerCalls l2 := by
  simp [pointerCalls, List.filterMap_append]

theorem lookups_append (l1 l2 : Log) : lookups (l1 ++ l2) = lookups l1 ++ lookups l2 := by
  simp [lookups, List.filterMap_append]

theorem storedVars_append (l1 l2 : Log) :
    storedVars (l1 ++ l2) = storedVars l1 ++ storedVars l2 := by
  simp [storedVars, List.filterMap_append]

theorem pointerCalls_attribEvents (env : Env) (program : Nat) (stride : Int)
    (attrs : List AttribArg) :
    ∀ (offset : Int) (log : Log),
      pointerCalls (attribEvents env program stride attrs offset log)
        = layout stride attrs offset := by
  induction attrs with
  | nil => intro _ _; rfl
  | cons a attrs ih =>
    intro offset log
    rw [attribEvents, layout]
    simp only [pointerCalls_append, ih]
    cases a.attrib <;> simp [pointerCalls]

theorem lookups_attribEvents (env : Env) (program : Nat) (stride : Int)
    (attrs : List AttribArg) :
    ∀ (offset : Int) (log : Log),
      lookups (attribEvents env program stride attrs offset log)
        = attrs.map AttribArg.name := by
  induction attrs with
  | nil => intro _ _; rfl
  | cons a attrs ih =>
    intro offset log
    rw [attribEvents]
    simp only [lookups_append, ih]
    cases a.attrib <;> simp [lookups]

theorem storedVars_attribEvents (env : Env) (program : Nat) (stride : Int)
    (attrs : List AttribArg) :
    ∀ (offset : Int) (log : Log),
      storedVars (attribEvents env program stride attrs offset log)
        = attrs.filterMap AttribArg.attrib := by
  induction attrs with
  | nil => intro _ _; rfl
  | cons a attrs ih =>
    intro offset log
    rw [attribEvents]
    simp only [storedVars_append, ih]
    cases h : a.attrib <;> simp [storedVars, List.filterMap_cons, h]

theorem Tiles_layout (stride : Int) (attrs : List AttribArg) :
    ∀ (offset : Int), 0 ≤ offset → (∀ a ∈ attrs, 0 < a.size) →
      Tiles (offset + sumSizes attrs) offset
        ((layout stride attrs offset).map
          fun c => (((c.2.2 / sizeof_GLfloat : Nat) : Int), c.1)) := by
  induction attrs with
  | nil => intro offset _ _; simp [layout, Tiles, sumSizes]
  | cons a attrs ih =>
    intro offset h0 hpos
    have ha : 0 < a.size := hpos a (by simp)
    have hrest : ∀ b ∈ attrs, 0 < b.size := fun b hb => hpos b (by simp [hb])
    have hstop : offset + sumSizes (a :: attrs) = offset + a.size + sumSizes attrs := by
      simp [sumSizes, add_assoc]
    rw [layout, List.map_cons, Tiles, hstop]
    refine ⟨?_, ha, ih (offset + a.size) (by omega) hrest⟩
    show (((4 * offset).toNat / sizeof_GLfloat : Nat) : Int) = offset
    unfold sizeof_GLfloat
    omega

theorem Tiles_bounds (stop : Int) (l : List (Int × Int)) :
    ∀ (start : Int), Tiles stop start l →
      start ≤ stop ∧ (∀ r ∈ l, start ≤ r.1 ∧ r.1 + r.2 ≤ stop)
        ∧ l.Pairwise (fun r s => r.1 + r.2 ≤ s.1) := by
  induction l with
  | nil => intro start h; simp [Tiles] at h; simp [h]
  | cons r l ih =>
    intro start h
    obtain ⟨h1, h2, h3⟩ := h
    obtain ⟨k1, k2, k3⟩ := ih _ h3
    refine ⟨by omega, ?_, ?_⟩
    · intro r1 hr1
      rcases List.mem_cons.mp hr1 with rfl | hr1
      · constructor <;> omega
      · have := k2 r1 hr1
        constructor <;> omega
    · rw [List.pairwise_cons]
      refine ⟨fun s hs => ?_, k3⟩
      have := (k2 s hs).1
      omega

/-- C2, as the code has it: called with a non-zero program on a
sentinel-terminated list whose attributes before the terminator have positive
sizes with four times their sum below 2^31, in an environment where
`glGetError` reports no error, `ShaderProgram_SetAttribs` prints the stride and
makes exactly one call of `ShaderProgram_SetAttrib` for each of those
attributes, in list order, with its name and size, the common stride (the sum
of the sizes) and the offset (the sum of the sizes before it), and returns:
each name is looked up, `glVertexAttribPointer` gets the size, the byte stride
4*stride and the byte pointer 4*offset, and the location is stored through the
attribute's pointer. -/
theorem SetAttribs_sets_each_attrib (env : Env) (program : Nat) (first : AttribArg)
    (rest : List AttribArg) (log : Log)
    (hprogram : program ≠ 0) (hfirst : first.isSet = true) (hterm : Terminated (first :: rest))
    (hpos : ∀ a ∈ leadingAttribs (first :: rest), 0 < a.size)
    (hfits : 4 * sumSizes (leadingAttribs (first :: rest)) < 2147483648)
    (hok : ∀ l, env.glGetError l = 0) :
    ShaderProgram_SetAttribs env program first rest log
        = setAttribCalls env program (sumSizes (leadingAttribs (first :: rest)))
            (leadingAttribs (first :: rest)) 0 (log ++ [strideEvent first rest])
    ∧ ShaderProgram_SetAttribs env program first rest log
        = .ret () (log ++ strideEvent first rest :: setAttribsEvents env program first rest log)
    ∧ lookups (setAttribsEvents env program first rest log)
        = (leadingAttribs (first :: rest)).map AttribArg.name
    ∧ pointerCalls (setAttribsEvents env program first rest log)
        = layout (4 * sumSizes (leadingAttribs (first :: rest)))
            (leadingAttribs (first :: rest)) 0
    ∧ storedVars (setAttribsEvents env program first rest log)
        = (leadingAttribs (first :: rest)).filterMap AttribArg.attrib :=
  by
  have hnonneg : 0 ≤ sumSizes (leadingAttribs (first :: rest)) := sumSizes_nonneg _ hpos
  have hbytes : toGLint (toULong (toULong (sumSizes (leadingAttribs (first :: rest)))
      * sizeof_GLfloat)) = 4 * sumSizes (leadingAttribs (first :: rest)) :=
    toGLint_byteStride _ (by unfold FitsGLint; omega)
  refine ⟨ShaderProgram_SetAttribs_eq_calls env program first rest log hprogram hfirst hterm
      hpos (by omega),
    ?_, lookups_attribEvents _ _ _ _ _ _, pointerCalls_attribEvents _ _ _ _ _ _,
    storedVars_attribEvents _ _ _ _ _ _⟩
  rw [ShaderProgram_SetAttribs_apply env program first rest log hprogram hfirst hterm hpos
    (by omega) hok, hbytes]
  rfl

/-- C2 at the call in `main`, every library call succeeding: position gets
size 2, byte stride 20 and byte offset 0, color gets size 3, byte stride 20 and
byte offset 8, and both locations are stored. -/
theorem SetAttribs_main_witness :
    ShaderProgram_SetAttribs okEnv 3 main_attrib_first main_attrib_rest []
      = .ret ()
        [.printf "%d\n" [.int 5],
         .glGetAttribLocation 3 (some "position") 0, .glEnableVertexAttribArray 0,
         .glVertexAttribPointer 0 2 20 0, .glGetError 0, .store "position" 0,
         .glGetAttribLocation 3 (some "color") 1, .glEnableVertexAttribArray 1,
         .glVertexAttribPointer 1 3 20 8, .glGetError 0, .store "color" 1] :=
  (SetAttribs_sets_each_attrib okEnv 3 main_attrib_first main_attrib_rest []
    (by decide) (by decide) (by decide) (by decide) (by decide) (fun _ => rfl)).2.1.trans
    (by decide)

/-- C2 fails where `glGetError` reports an error: on the list of `main`, which
has two attributes, the process ends inside the first call of
`ShaderProgram_SetAttrib`; color is never set and nothing is stored.  It also
fails for a zero program (nothing is set at all), for a negative size (the
`unsigned long` offset of the next attribute wraps round) and for a stride
whose byte count is no `GLsizei` value (the byte stride wraps round). -/
theorem SetAttribs_counterexample :
    (leadingAttribs (main_attrib_first :: main_attrib_rest)).length = 2
    ∧ ShaderProgram_SetAttribs glErrorEnv 3 main_attrib_first main_attrib_rest []
      = .exit 1
        [.printf "%d\n" [.int 5],
         .glGetAttribLocation 3 (some "position") 0, .glEnableVertexAttribArray 0,
         .glVertexAttribPointer 0 2 20 0, .glGetError GL_INVALID_VALUE,
         .printf "%s panic: " [.str (some "ShaderProgram_SetAttrib")],
         .printf "%s (%d)\n" [.str (some "GL_INVALID_VALUE"), .int 1281]]
    ∧ ShaderProgram_SetAttribs okEnv 0 main_attrib_first main_attrib_rest []
      = .exit 1 [.printf "ShaderProgram_SetAttribs: args not set" []]
    ∧ pointerCalls (ShaderProgram_SetAttribs okEnv 3 ⟨some "position", some "position", -1⟩
        [⟨some "color", some "color", 3⟩, ⟨none, none, 0⟩] []).log
      = [(-1, 8, 0), (3, 8, 18446744073709551612)]
    ∧ pointerCalls (ShaderProgram_SetAttribs okEnv 3 ⟨some "position", some "position", 536870912⟩
        [⟨none, none, 0⟩] []).log
      = [(536870912, -2147483648, 0)] := by
  refine ⟨by decide, by decide, by decide, by decide, by decide⟩

/-- C9, as the code has it: called with a non-zero program on a
sentinel-terminated list whose attributes before the terminator have positive
sizes with a sum below 2^31, in an environment where `glGetError` reports no
error, the stride pass and the attribute pass cover the same attributes: the
float ranges handed to OpenGL have the sizes of those attributes, start at 0,
each starts where the one before ended, and the last ends at the stride that
`GetStride` returned; so they are pairwise disjoint and each lies within the
stride. -/
theorem SetAttribs_ranges_tile_stride (env : Env) (program : Nat) (first : AttribArg)
    (rest : List AttribArg) (log : Log)
    (hprogram : program ≠ 0) (hfirst : first.isSet = true) (hterm : Terminated (first :: rest))
    (hpos : ∀ a ∈ leadingAttribs (first :: rest), 0 < a.size)
    (hfits : sumSizes (leadingAttribs (first :: rest)) < 2147483648)
    (hok : ∀ l, env.glGetError l = 0) :
    ∃ stride evs, GetStride rest first.size = some stride
      ∧ ShaderProgram_SetAttribs env program first rest log
          = .ret () (log ++ .printf "%d\n" [.int stride] :: evs)
      ∧ (floatRanges evs).map Prod.snd = (leadingAttribs (first :: rest)).map AttribArg.size
      ∧ Tiles stride 0 (floatRanges evs)
      ∧ (floatRanges evs).Pairwise (fun r s => r.1 + r.2 ≤ s.1)
      ∧ ∀ r ∈ floatRanges evs, 0 ≤ r.1 ∧ r.1 + r.2 ≤ stride := by
  have hnonneg : 0 ≤ sumSizes (leadingAttribs (first :: rest)) := sumSizes_nonneg _ hpos
  have hS : FitsGLint (sumSizes (leadingAttribs (first :: rest))) := by
    unfold FitsGLint
    omega
  have hranges : ∀ (byteStride : Int) (log1 : Log),
      floatRanges (attribEvents env program byteStride (leadingAttribs (first :: rest)) 0 log1)
        = (layout byteStride (leadingAttribs (first :: rest)) 0).map
            fun c => (((c.2.2 / sizeof_GLfloat : Nat) : Int), c.1) := by
    intro byteStride log1
    unfold floatRanges
    rw [pointerCalls_attribEvents]
  have htiles : ∀ (byteStride : Int) (log1 : Log),
      Tiles (sumSizes (leadingAttribs (first :: rest))) 0
        (floatRanges (attribEvents env program byteStride
          (leadingAttribs (first :: rest)) 0 log1)) := by
    intro byteStride log1
    rw [hranges]
    have h := Tiles_layout byteStride (leadingAttribs (first :: rest)) 0 (le_refl 0) hpos
    rwa [zero_add] at h
  have hsizes : ∀ (byteStride : Int) (attrs : List AttribArg) (offset : Int),
      ((layout byteStride attrs offset).map
          fun c => (((c.2.2 / sizeof_GLfloat : Nat) : Int), c.1)).map Prod.snd
        = attrs.map AttribArg.size := by
    intro byteStride attrs
    induction attrs with
    | nil => intro _; rfl
    | cons a attrs ih =>
      intro offset
      rw [layout, List.map_cons, List.map_cons, List.map_cons, ih]
  obtain ⟨-, hb, hp⟩ := Tiles_bounds _ _ _ (htiles
    (toGLint (toULong (toULong (sumSizes (leadingAttribs (first :: rest))) * sizeof_GLfloat)))
    (log ++ [strideEvent first rest]))
  refine ⟨sumSizes (leadingAttribs (first :: rest)), _,
    GetStride_eq first rest hfirst hterm hS,
    ShaderProgram_SetAttribs_apply env program first rest log hprogram hfirst hterm hpos hfits hok,
    ?_, htiles _ _, hp, hb⟩
  rw [hranges, hsizes]

/-- C9 at the call in `main`, every library call succeeding. -/
theorem SetAttribs_ranges_witness :
    ∃ stride evs, GetStride main_attrib_rest main_attrib_first.size = some stride
      ∧ ShaderProgram_SetAttribs okEnv 3 main_attrib_first main_attrib_rest []
          = .ret () ([] ++ .printf "%d\n" [.int stride] :: evs)
      ∧ (floatRanges evs).map Prod.snd
          = (leadingAttribs (main_attrib_first :: main_attrib_rest)).map AttribArg.size
      ∧ Tiles stride 0 (floatRanges evs)
      ∧ (floatRanges evs).Pairwise (fun r s => r.1 + r.2 ≤ s.1)
      ∧ ∀ r ∈ floatRanges evs, 0 ≤ r.1 ∧ r.1 + r.2 ≤ stride :=
  SetAttribs_ranges_tile_stride okEnv 3 main_attrib_first main_attrib_rest []
    (by decide) (by decide) (by decide) (by decide) (by decide) (fun _ => rfl)

/-- C9 fails where `glGetError` reports an error: of two attributes of size
1 the stride is 2, but the process ends inside the first call of
`ShaderProgram_SetAttrib`, and the only range handed to OpenGL, `[0, 1)`, does
not tile `[0, 2)`.  With a zero program no range is handed over at all. -/
theorem SetAttribs_ranges_counterexample :
    GetStride [⟨some "b", some "b", 1⟩, ⟨none, none, 0⟩] 1 = some 2
    ∧ ShaderProgram_SetAttribs glErrorEnv 1 ⟨some "a", some "a", 1⟩
        [⟨some "b", some "b", 1⟩, ⟨none, none, 0⟩] []
      = .exit 1
        [.printf "%d\n" [.int 2],
         .glGetAttribLocation 1 (some "a") 1, .glEnableVertexAttribArray 1,
         .glVertexAttribPointer 1 1 8 0, .glGetError GL_INVALID_VALUE,
         .printf "%s panic: " [.str (some "ShaderProgram_SetAttrib")],
         .printf "%s (%d)\n" [.str (some "GL_INVALID_VALUE"), .int 1281]]
    ∧ floatRanges (ShaderProgram_SetAttribs glErrorEnv 1 ⟨some "a", some "a", 1⟩
        [⟨some "b", some "b", 1⟩, ⟨none, none, 0⟩] []).log = [(0, 1)]
    ∧ ¬ Tiles 2 0 [(0, 1)]
    ∧ floatRanges (ShaderProgram_SetAttribs okEnv 0 ⟨some "a", some "a", 1⟩
        [⟨some "b", some "b", 1⟩, ⟨none, none, 0⟩] []).log = []
    ∧ ¬ Tiles 2 0 [] := by
  refine ⟨by decide, by decide, by decide, ?_, by decide, ?_⟩
  · simp [Tiles]
  · simp [Tiles]

/-! ## Shaders -/

theorem TerminatedShaders_tail {a : ShaderArg} {rest : List ShaderArg} (ha : a.isSet = true)
    (h : TerminatedShaders (a :: rest)) : TerminatedShaders rest := by
  obtain ⟨t, ht, hts⟩ := h
  rcases List.mem_cons.mp ht with rfl | ht1
  · simp [ha] at hts
  · exact ⟨t, ht1, hts⟩

theorem ShaderProgram_New_loop_of_not_set (env : Env) (program : Nat)
    (args : List ShaderArg) (cur : ShaderArg) (log : Log) (hcur : cur.isSet = false) :
    ShaderProgram_New_loop env program args cur log = .ret () log := by
  rcases cur with ⟨filename, shader, shaderType⟩
  cases args <;> cases filename <;> cases shaderType <;>
    simp_all [ShaderProgram_New_loop, ShaderArg.isSet, pure_apply]

theorem ShaderProgram_New_loop_of_set (env : Env) (program : Nat)
    (next : ShaderArg) (rest : List ShaderArg) (cur : ShaderArg) (log : Log)
    (hcur : cur.isSet = true) :
    ∃ path, cur.filename = some path ∧
    ShaderProgram_New_loop env program (next :: rest) cur log
      = (ShaderProgram_New_step env program path cur.shader cur.shaderType >>= fun _ =>
          ShaderProgram_New_loop env program rest next) log := by
  rcases cur with ⟨filename, shader, shaderType⟩
  cases filename with
  | none => simp [ShaderArg.isSet] at hcur
  | some path =>
    refine ⟨path, rfl, ?_⟩
    cases shaderType with
    | zero => simp [ShaderArg.isSet] at hcur
    | succ n =>
      rw [ShaderProgram_New_loop]

theorem ShaderProgram_New_step_apply (env : Env) (program : Nat) (path var : String)
    (shaderType : Nat) (log : Log) (henv : FilesLoadAndCompile env) :
    ∃ size content handle status, status ≠ 0 ∧
      ShaderProgram_New_step env program path (some var) shaderType log
        = .ret () (log ++
            shaderStepEvents program path var shaderType size content handle status) := by
  obtain ⟨hopen, halloc, hread, hcompile⟩ := henv
  simp only [ShaderProgram_New_step, Shader_FromFile, Text_FromFile, Text_Free, bind_apply,
    call_apply, emit_apply, pure_apply, hopen, halloc, hread, hcompile, Bool.not_true,
    Bool.false_eq_true, if_false, ne_eq, not_true_eq_false, Option.isSome_some, if_true,
    List.append_assoc, List.cons_append, List.nil_append]
  exact ⟨_, _, _, _, hcompile _ _, rfl⟩

theorem leadingShaders_cons_of_set {a : ShaderArg} (rest : List ShaderArg)
    (ha : a.isSet = true) : leadingShaders (a :: rest) = a :: leadingShaders rest := by
  simp [leadingShaders, List.takeWhile, ha]

theorem leadingShaders_cons_of_not_set {a : ShaderArg} (rest : List ShaderArg)
    (ha : a.isSet = false) : leadingShaders (a :: rest) = [] := by
  simp [leadingShaders, List.takeWhile, ha]

theorem ShaderProgram_New_loop_apply (env : Env) (program : Nat)
    (henv : FilesLoadAndCompile env) (args : List ShaderArg) :
    ∀ (cur : ShaderArg) (log : Log), TerminatedShaders (cur :: args) →
      (∀ a ∈ leadingShaders (cur :: args), a.shader ≠ none) →
      ∃ evs, ShaderProgram_New_loop env program args cur log = .ret () (log ++ evs)
        ∧ AttachesInOrder program (leadingShaders (cur :: args)) evs := by
  induction args with
  | nil =>
    intro cur log hterm _
    have hcur : cur.isSet = false := by
      obtain ⟨t, ht, hts⟩ := hterm
      simp at ht
      rw [← ht]
      exact hts
    rw [ShaderProgram_New_loop_of_not_set _ _ _ _ _ hcur, leadingShaders_cons_of_not_set _ hcur]
    exact ⟨[], by simp, rfl⟩
  | cons next rest ih =>
    intro cur log hterm hptr
    by_cases hcur : cur.isSet = true
    · obtain ⟨path, hpath, hloop⟩ :=
        ShaderProgram_New_loop_of_set env program next rest cur log hcur
      rw [leadingShaders_cons_of_set _ hcur] at hptr ⊢
      obtain ⟨var, hvar⟩ := Option.ne_none_iff_exists'.mp (hptr cur (by simp))
      obtain ⟨size, content, handle, status, hstatus, hstep⟩ :=
        ShaderProgram_New_step_apply env program path var cur.shaderType log henv
      obtain ⟨evs1, hrun, hatt⟩ := ih next
        (log ++ shaderStepEvents program path var cur.shaderType size content handle status)
        (TerminatedShaders_tail hcur hterm) (fun a ha => hptr a (by simp [ha]))
      refine ⟨shaderStepEvents program path var cur.shaderType size content handle status
        ++ evs1, ?_, ?_⟩
      · rw [hloop, bind_apply, hvar, hstep]
        simp only [hrun, List.append_assoc]
      · exact ⟨path, var, size, content, handle, status, evs1, hpath, hvar, hstatus, rfl, hatt⟩
    · have hcur1 : cur.isSet = false := by simpa using hcur
      rw [ShaderProgram_New_loop_of_not_set _ _ _ _ _ hcur1,
        leadingShaders_cons_of_not_set _ hcur1]
      exact ⟨[], by simp, rfl⟩

theorem ShaderProgram_New_loop_append (env : Env) (program : Nat) (pre : List ShaderArg)
    (t : ShaderArg) (post : List ShaderArg) (ht : t.isSet = false) :
    ∀ (cur : ShaderArg) (log : Log),
      ShaderProgram_New_loop env program (pre ++ t :: post) cur log
        = ShaderProgram_New_loop env program (pre ++ [t]) cur log := by
  induction pre with
  | nil =>
    intro cur log
    by_cases hcur : cur.isSet = true
    · obtain ⟨path, _, h1⟩ := ShaderProgram_New_loop_of_set env program t post cur log hcur
      obtain ⟨path2, _, h2⟩ := ShaderProgram_New_loop_of_set env program t [] cur log hcur
      have hp : path = path2 := by simp_all
      subst hp
      simp only [List.nil_append]
      rw [h1, h2, bind_apply, bind_apply]
      cases ShaderProgram_New_step env program path cur.shader cur.shaderType log with
      | ret a log1 =>
        simp only
        rw [ShaderProgram_New_loop_of_not_set _ _ _ _ _ ht,
          ShaderProgram_New_loop_of_not_set _ _ _ _ _ ht]
      | exit code log1 => rfl
      | undefined log1 => rfl
      | pending log1 => rfl
    · have hcur1 : cur.isSet = false := by simpa using hcur
      rw [ShaderProgram_New_loop_of_not_set _ _ _ _ _ hcur1,
        ShaderProgram_New_loop_of_not_set _ _ _ _ _ hcur1]
  | cons a pre ih =>
    intro cur log
    by_cases hcur : cur.isSet = true
    · obtain ⟨path, _, h1⟩ :=
        ShaderProgram_New_loop_of_set env program a (pre ++ t :: post) cur log hcur
      obtain ⟨path2, _, h2⟩ :=
        ShaderProgram_New_loop_of_set env program a (pre ++ [t]) cur log hcur
      have hp : path = path2 := by simp_all
      subst hp
      simp only [List.cons_append]
      rw [h1, h2, bind_apply, bind_apply]
      cases ShaderProgram_New_step env program path cur.shader cur.shaderType log with
      | ret _ log1 => exact ih a log1
      | exit code log1 => rfl
      | undefined log1 => rfl
      | pending log1 => rfl
    · have hcur1 : cur.isSet = false := by simpa using hcur
      rw [ShaderProgram_New_loop_of_not_set _ _ _ _ _ hcur1,
        ShaderProgram_New_loop_of_not_set _ _ _ _ _ hcur1]

theorem ShaderProgram_New_apply (env : Env) (first : ShaderArg) (rest : List ShaderArg)
    (log : Log) :
    ShaderProgram_New env first rest log
      = (ShaderProgram_New_loop env (env.glCreateProgram log) rest first >>= fun _ =>
          Panic_on_glGetError env "ShaderProgram_New" >>= fun _ =>
            (pure (env.glCreateProgram log) : Prog Nat))
        (log ++ [.glCreateProgram (env.glCreateProgram log)]) := by
  unfold ShaderProgram_New
  rw [bind_apply, call_apply]

/-- C8, as the code has it: on a sentinel-terminated list whose groups before
the terminator have non-null out-pointers, in an environment where every file
is read and every shader compiles, `ShaderProgram_New` creates the program,
then loads, compiles, stores through its out-pointer and attaches exactly the
shaders of the groups before the first terminator, in list order, and then
checks `glGetError`; nothing is attached when the first group is a terminator;
and what follows a terminator is never read. -/
theorem ShaderProgram_New_attaches_leading_run (env : Env) (first : ShaderArg)
    (rest : List ShaderArg) (log : Log)
    (hterm : TerminatedShaders (first :: rest))
    (hptr : ∀ a ∈ leadingShaders (first :: rest), a.shader ≠ none)
    (henv : FilesLoadAndCompile env) :
    (∃ evs,
      ShaderProgram_New env first rest log
        = (Panic_on_glGetError env "ShaderProgram_New" >>= fun _ =>
            (pure (env.glCreateProgram log) : Prog Nat))
          (log ++ .glCreateProgram (env.glCreateProgram log) :: evs)
      ∧ AttachesInOrder (env.glCreateProgram log) (leadingShaders (first :: rest)) evs
      ∧ (first.isSet = false → evs = []))
    ∧ ∀ (pre : List ShaderArg) (t : ShaderArg) (post : List ShaderArg),
        rest = pre ++ t :: post → t.isSet = false →
        ShaderProgram_New env first rest log = ShaderProgram_New env first (pre ++ [t]) log := by
  constructor
  · obtain ⟨evs, hrun, hatt⟩ := ShaderProgram_New_loop_apply env (env.glCreateProgram log) henv
      rest first (log ++ [.glCreateProgram (env.glCreateProgram log)]) hterm hptr
    refine ⟨evs, ?_, hatt, ?_⟩
    · rw [ShaderProgram_New_apply, bind_apply, hrun]
      simp only [List.append_assoc, List.singleton_append]
    · intro hfirst
      rw [leadingShaders_cons_of_not_set _ hfirst] at hatt
      exact hatt
  · intro pre t post hrest ht
    rw [ShaderProgram_New_apply, ShaderProgram_New_apply, bind_apply, bind_apply, hrest,
      ShaderProgram_New_loop_append env _ pre t post ht]

/-- C8 at the call in `main`, every library call succeeding: the vertex
shader, then the fragment shader. -/
theorem ShaderProgram_New_main_witness :
    ShaderProgram_New okEnv main_shader_first main_shader_rest []
      = .ret 3 (.glCreateProgram 3 :: main_shader_events ++ [.glGetError 0])
    ∧ AttachesInOrder 3 (leadingShaders (main_shader_first :: main_shader_rest))
        main_shader_events := by
  obtain ⟨⟨evs, hrun, hatt, -⟩, -⟩ :=
    ShaderProgram_New_attaches_leading_run okEnv main_shader_first main_shader_rest []
      (by decide) (by decide)
      ⟨fun _ _ => rfl, fun _ _ => rfl, fun _ _ => rfl, fun _ _ => Int.one_ne_zero⟩
  have hlog : ShaderProgram_New okEnv main_shader_first main_shader_rest []
      = .ret 3 (.glCreateProgram 3 :: main_shader_events ++ [.glGetError 0]) := by
    decide
  refine ⟨hlog, ?_⟩
  rw [hlog, bind_apply, Panic_on_glGetError_apply] at hrun
  have hok : ∀ l, okEnv.glGetError l = 0 := fun _ => rfl
  simp only [hok, if_true, pure_apply, Outcome.ret.injEq, List.nil_append,
    List.cons_append, List.cons.injEq, List.append_cancel_right_eq] at hrun
  rw [hrun.2.2]
  exact hatt

/-- C8 fails where a file cannot be opened: on the list of `main`, whose
leading run has two groups, the process ends with `exit(-1)` in
`Text_FromFile` and no shader is attached.  It fails likewise where a shader
does not compile (the process ends with `exit(1)` in `Shader_FromFile`), and
where the out-pointer of a group of the leading run is null (the write through
it is undefined). -/
theorem ShaderProgram_New_counterexample :
    (leadingShaders (main_shader_first :: main_shader_rest)).length = 2
    ∧ ShaderProgram_New noFileEnv main_shader_first main_shader_rest []
      = .exit (-1)
        [.glCreateProgram 3, .fopen "./shader.vert" false,
         .printf "Text_FromFile: unable to find '%s'" [.str (some "./shader.vert")]]
    ∧ ShaderProgram_New noCompileEnv main_shader_first main_shader_rest []
      = .exit 1
        [.glCreateProgram 3,
         .fopen "./shader.vert" true, .fseek, .ftell 10, .rewind, .calloc 11 true,
         .fread 10 10 "void main()", .fclose,
         .glCreateShader GL_VERTEX_SHADER 1, .glShaderSource 1 "void main()", .free,
         .glCompileShader 1, .glGetShaderiv 1 0,
         .glGetShaderInfoLog 1 "0:1: syntax error", .printf "0:1: syntax error" []]
    ∧ ShaderProgram_New okEnv ⟨some "./shader.vert", none, GL_VERTEX_SHADER⟩
        [⟨none, none, 0⟩] []
      = .undefined
        [.glCreateProgram 3,
         .fopen "./shader.vert" true, .fseek, .ftell 10, .rewind, .calloc 11 true,
         .fread 10 10 "void main()", .fclose,
         .glCreateShader GL_VERTEX_SHADER 1, .glShaderSource 1 "void main()", .free,
         .glCompileShader 1, .glGetShaderiv 1 1] := by
  refine ⟨by decide, by decide, by decide, by decide⟩

/-! ## The quad -/

theorem main_run : main okEnv [some ⟨SDL_QUIT, 0⟩] [] = .ret 0 main_events := by
  decide!

/-- C3: the quad of `main` fits the layout `main` asks for.  The stride of
position (2) and color (3) is 5 floats, the 20 floats of `vertices` are 4
whole vertices, the 6 values of `elements` are indices below 4 that between
them name all four vertices as the triples (0,1,2) and (2,3,0), the count
given to `glDrawElements` is the length of `elements`, and every attribute of
every vertex drawn lies inside `vertices`; a run of `main` uploads both arrays
whole (80 and 24 bytes) and draws 6 indices. -/
theorem quad_data_consistent :
    GetStride main_attrib_rest main_attrib_first.size = some 5
    ∧ vertices.length = 20 ∧ vertices.length = 4 * 5
    ∧ elements.length = 6
    ∧ (∀ e ∈ elements, e < 4)
    ∧ elements = [0, 1, 2] ++ [2, 3, 0]
    ∧ (∀ v, v < 4 → v ∈ elements)
    ∧ drawCount = elements.length
    ∧ (∀ e ∈ elements.take drawCount,
        ∀ c ∈ layout 20 (leadingAttribs (main_attrib_first :: main_attrib_rest)) 0,
          sizeof_GLfloat * 5 * e + c.2.2 + sizeof_GLfloat * c.1.toNat
            ≤ sizeof_GLfloat * vertices.length)
    ∧ (∀ (poll : Option SDL_Event) (log : Log),
        drawCalls (Window_Event_body poll log).log = drawCalls log ++ [elements.length])
    ∧ main okEnv [some ⟨SDL_QUIT, 0⟩] [] = .ret 0 main_events
    ∧ bufferUploads main_events
        = [("GL_ARRAY_BUFFER", 80, 20, 0), ("GL_ELEMENT_ARRAY_BUFFER", 24, 0, 6)]
    ∧ pointerCalls main_events = [(2, 20, 0), (3, 20, 8)]
    ∧ drawCalls main_events = [6] := by
  refine ⟨by decide, by decide, by decide, by decide, by decide, by decide, by decide,
    by decide, by decide, ?_, main_run, ?_, ?_, ?_⟩
  · intro poll log
    rw [Window_Event_body_apply]
    rcases poll with _ | ev
    · simp [Outcome.log, drawCalls, iterationEvents, elements, List.filterMap_append]
    · by_cases hq : ev.quits = true <;>
        simp [Outcome.log, drawCalls, iterationEvents, elements, List.filterMap_append, hq]
  · rfl
  · rfl
  · rfl

end Citron
